import Mathlib

/-!
# Verification of the newsletter-command analytics pipeline

Shallow embedding of the data-normalization and aggregation pipeline of the
newsletter analytics dashboard: the spreadsheet (XLSX) parser and its
aggregator (`scripts/date-picker.js`), the delta computation
(`scripts/main.js`), the CSV parser and its period aggregation
(`CSVParser` module), the data service's ISO-week bucketing and sparklines
(`DataService` module), and the insight engine (`scripts/insight-engine.js`).

Conventions of the embedding:
* JS numbers are embedded as `ℚ` (all arithmetic in the pipeline is exact
  on the inputs considered); JS integers/counts as `ℤ`.
* A JS `Date` is embedded as its millisecond timestamp (`ℤ`).  Local-time
  accessors (`getFullYear` …) are modeled as their UTC counterparts, i.e.
  the environment's timezone offset is taken to be 0.
* `null`/absent values are embedded as `Option.none`; where code
  distinguishes `undefined` from `null`, a nested `Option` is used.
* Divisions of timestamps use `Int.ediv`/`Int.emod`, which coincide with
  floor division/modulus because every divisor involved is positive.
-/

namespace JSDate

/-- Days since 1970-01-01 of the civil date `(y, m, d)` (proleptic Gregorian,
`m` is 1-based).  Standard civil-calendar conversion (Hinnant's algorithm,
with floor division so it is valid for all years). -/
def daysFromCivil (y m d : ℤ) : ℤ :=
  let y' := if m ≤ 2 then y - 1 else y
  let era := Int.ediv y' 400
  let yoe := y' - era * 400
  let mp := Int.emod (m + 9) 12
  let doy := Int.ediv (153 * mp + 2) 5 + d - 1
  let doe := yoe * 365 + Int.ediv yoe 4 - Int.ediv yoe 100 + doy
  era * 146097 + doe - 719468

/-- Civil date `(y, m, d)` of a day count since 1970-01-01 (inverse of
`daysFromCivil`). -/
def civilFromDays (z0 : ℤ) : ℤ × ℤ × ℤ :=
  let z := z0 + 719468
  let era := Int.ediv z 146097
  let doe := z - era * 146097
  let yoe := Int.ediv (doe - Int.ediv doe 1460 + Int.ediv doe 36524 - Int.ediv doe 146096) 365
  let y' := yoe + era * 400
  let doy := doe - (365 * yoe + Int.ediv yoe 4 - Int.ediv yoe 100)
  let mp := Int.ediv (5 * doy + 2) 153
  let d := doy - Int.ediv (153 * mp + 2) 5 + 1
  let m := if mp < 10 then mp + 3 else mp - 9
  (if m ≤ 2 then y' + 1 else y', m, d)

/-- Milliseconds per day. -/
def msPerDay : ℤ := 86400000

/-- The day count (since 1970-01-01) containing a millisecond timestamp. -/
def dayOfMs (ms : ℤ) : ℤ := Int.ediv ms msPerDay

/-- `Date.prototype.getUTCDay`: 0 = Sunday … 6 = Saturday.
1970-01-01 (day 0) was a Thursday. -/
def utcDayOfWeek (day : ℤ) : ℤ := Int.emod (day + 4) 7

/-- `getFullYear` of a timestamp (timezone modeled as UTC). -/
def getFullYear (ms : ℤ) : ℤ := (civilFromDays (dayOfMs ms)).1

/-- `getMonth` of a timestamp, 0-based as in JS (timezone modeled as UTC). -/
def getMonth (ms : ℤ) : ℤ := (civilFromDays (dayOfMs ms)).2.1 - 1

/-- `getDate` (day of month) of a timestamp (timezone modeled as UTC). -/
def getDate (ms : ℤ) : ℤ := (civilFromDays (dayOfMs ms)).2.2

/-- Noon-UTC timestamp of a civil date; convenience for building inputs. -/
def noonUTC (y m d : ℤ) : ℤ := daysFromCivil y m d * msPerDay + 43200000

/-- Midnight-UTC timestamp of a civil date. -/
def midnightUTC (y m d : ℤ) : ℤ := daysFromCivil y m d * msPerDay

end JSDate

namespace JSNum

/-- `Math.round` in JS: half-up rounding, `⌊x + 1/2⌋`. -/
def jsRound (q : ℚ) : ℤ := ⌊q + 1 / 2⌋

/-- Value of a list of decimal digit characters (most significant first). -/
def digitsVal : List Char → ℕ
  | [] => 0
  | c :: cs => (c.toNat - '0'.toNat) * 10 ^ cs.length + digitsVal cs

/-- Characters treated as whitespace by JS number parsing. -/
def isWS (c : Char) : Bool := c == ' ' || c == '\t' || c == '\n' || c == '\r'

/-- Model of `parseFloat` on a string: skip leading whitespace, optional
sign, decimal digits with optional fraction and exponent; `none` when no
digit is found (JS `NaN`).  Faithful to ECMAScript `parseFloat` on all
inputs without `Infinity` tokens. -/
def parseFloatQ (s : String) : Option ℚ :=
  let cs := s.data.dropWhile isWS
  let (sign, cs) : ℚ × List Char :=
    match cs with
    | '-' :: rest => (-1, rest)
    | '+' :: rest => (1, rest)
    | _ => (1, cs)
  let intDigits := cs.takeWhile Char.isDigit
  let cs := cs.dropWhile Char.isDigit
  let (fracDigits, cs) : List Char × List Char :=
    match cs with
    | '.' :: rest => (rest.takeWhile Char.isDigit, rest.dropWhile Char.isDigit)
    | _ => ([], cs)
  if intDigits.isEmpty && fracDigits.isEmpty then none
  else
    let mant : ℚ :=
      (digitsVal intDigits : ℚ) + (digitsVal fracDigits : ℚ) / 10 ^ fracDigits.length
    let expo : ℤ :=
      match cs with
      | 'e' :: rest => readExp rest
      | 'E' :: rest => readExp rest
      | _ => 0
    some (sign * mant * 10 ^ expo)
where
  /-- Exponent part after `e`/`E`; 0 when absent or malformed (JS ignores a
  dangling exponent marker). -/
  readExp (cs : List Char) : ℤ :=
    let (esign, cs) : ℤ × List Char :=
      match cs with
      | '-' :: rest => (-1, rest)
      | '+' :: rest => (1, rest)
      | _ => (1, cs)
    let eDigits := cs.takeWhile Char.isDigit
    if eDigits.isEmpty then 0 else esign * (digitsVal eDigits : ℤ)

/-- Model of `parseInt(s, 10)`: skip whitespace, optional sign, leading
decimal digits; `none` when no digit is found (JS `NaN`). -/
def parseIntJS (s : String) : Option ℤ :=
  let cs := s.data.dropWhile isWS
  let (sign, cs) : ℤ × List Char :=
    match cs with
    | '-' :: rest => (-1, rest)
    | '+' :: rest => (1, rest)
    | _ => (1, cs)
  let ds := cs.takeWhile Char.isDigit
  if ds.isEmpty then none else some (sign * (digitsVal ds : ℤ))

end JSNum

namespace JSString

/-- JS `String.prototype.trim` (on the whitespace characters that occur in
the data considered). -/
def jsTrim (s : String) : String :=
  let ws := fun c : Char => c == ' ' || c == '\t' || c == '\n' || c == '\r'
  String.mk (((s.data.dropWhile ws).reverse.dropWhile ws).reverse)

/-- JS `String.prototype.replace(pat, '')` with a single-character pattern:
removes the first occurrence only. -/
def removeFirst (c : Char) : String → String
  | s => String.mk (go s.data)
where
  go : List Char → List Char
    | [] => []
    | x :: xs => if x = c then xs else x :: go xs

/-- Substring containment, as JS `String.prototype.includes`. -/
def containsSubstr (s sub : String) : Bool :=
  (List.range (s.data.length + 1)).any fun i => sub.data.isPrefixOf (s.data.drop i)

end JSString

namespace XLSXParser

open JSNum

/-- A raw spreadsheet cell value as it reaches the XLSX parser's helpers:
a JS number, a string, or `null`/`undefined`. -/
inductive RawCell where
  | num (q : ℚ)
  | str (s : String)
  | null
deriving DecidableEq

/-- `parseFloat` applied to a raw cell, as JS coercion does it: a number
parses to itself, a string through `parseFloat`, `null` to `NaN`. -/
def parseFloatCell : RawCell → Option ℚ
  | RawCell.num q => some q
  | RawCell.str s => parseFloatQ s
  | RawCell.null => none

/-- `toPercentage` from `scripts/date-picker.js`: `null`/`undefined` and
unparseable input give `null`; a parsed value ≤ 1 is multiplied by 100
(source stored a fraction); a value > 1 is returned as-is. -/
def toPercentage (value : RawCell) : Option ℚ :=
  match value with
  | RawCell.null => none
  | v =>
    match parseFloatCell v with
    | none => none
    | some num => some (if num ≤ 1 then num * 100 else num)

/-- `excelDateToJS` from `scripts/date-picker.js`: a falsy (`0`, `null`) or
non-numeric serial gives `null`; otherwise the timestamp
`(serial - 25569) * 86400 * 1000 + 43200000` (noon UTC of the Excel
1900-epoch day, 25569 = days between 1899-12-30 "day 0" and 1970-01-01). -/
def excelDateToJS : RawCell → Option ℚ
  | RawCell.num q => if q = 0 then none else some ((q - 25569) * 86400 * 1000 + 43200000)
  | _ => none

/-- A canonical post record as produced by the XLSX `parsePosts`
(counts default to 0, rates to `null`). -/
structure Post where
  date : ℤ
  title : String := "Untitled"
  sent : ℤ := 0
  delivered : ℤ := 0
  totalOpens : ℤ := 0
  uniqueOpens : ℤ := 0
  uniqueClicks : ℤ := 0
  verifiedClicks : ℤ := 0
  unsubscribed : ℤ := 0
  openRate : Option ℚ := none
  ctr : Option ℚ := none
  verifiedCtr : Option ℚ := none
  deliveryRate : Option ℚ := none
  unsubscribeRate : Option ℚ := none
  contentTags : Option String := none
deriving DecidableEq

/-- Result shape of `aggregatePosts`.  The two `avg…` fields are absent
(`undefined`) on the empty-input early return, hence `Option`. -/
structure AggregateResult where
  sent : ℤ
  delivered : ℤ
  totalOpens : ℤ
  uniqueOpens : ℤ
  uniqueClicks : ℤ
  verifiedClicks : ℤ
  unsubscribed : ℤ
  count : ℤ
  openRate : Option ℚ
  ctr : Option ℚ
  verifiedCtr : Option ℚ
  deliveryRate : Option ℚ
  avgUniqueClicks : Option ℚ
  avgVerifiedClicks : Option ℚ
deriving DecidableEq

/-- `aggregatePosts` from `scripts/date-picker.js`: sums the count fields,
then computes each rate as the ratio of the summed counts (×100, rounded by
`Math.round(x * 10000) / 100`), `null` when its denominator is not positive;
per-post click averages are rounded to two decimals. -/
def aggregatePosts (posts : List Post) : AggregateResult :=
  match posts with
  | [] =>
    { sent := 0, delivered := 0, totalOpens := 0, uniqueOpens := 0
      uniqueClicks := 0, verifiedClicks := 0, unsubscribed := 0, count := 0
      openRate := none, ctr := none, verifiedCtr := none, deliveryRate := none
      avgUniqueClicks := none, avgVerifiedClicks := none }
  | _ =>
    let sent := (posts.map Post.sent).sum
    let delivered := (posts.map Post.delivered).sum
    let totalOpens := (posts.map Post.totalOpens).sum
    let uniqueOpens := (posts.map Post.uniqueOpens).sum
    let uniqueClicks := (posts.map Post.uniqueClicks).sum
    let verifiedClicks := (posts.map Post.verifiedClicks).sum
    let unsubscribed := (posts.map Post.unsubscribed).sum
    let count : ℤ := posts.length
    { sent := sent, delivered := delivered, totalOpens := totalOpens
      uniqueOpens := uniqueOpens, uniqueClicks := uniqueClicks
      verifiedClicks := verifiedClicks, unsubscribed := unsubscribed
      count := count
      openRate :=
        if 0 < delivered then
          some ((jsRound ((uniqueOpens : ℚ) / (delivered : ℚ) * 10000) : ℚ) / 100)
        else none
      ctr :=
        if 0 < uniqueOpens then
          some ((jsRound ((uniqueClicks : ℚ) / (uniqueOpens : ℚ) * 10000) : ℚ) / 100)
        else none
      verifiedCtr :=
        if 0 < uniqueOpens then
          some ((jsRound ((verifiedClicks : ℚ) / (uniqueOpens : ℚ) * 10000) : ℚ) / 100)
        else none
      deliveryRate :=
        if 0 < sent then
          some ((jsRound ((delivered : ℚ) / (sent : ℚ) * 10000) : ℚ) / 100)
        else none
      avgUniqueClicks :=
        some (if 0 < count then (jsRound ((uniqueClicks : ℚ) / (count : ℚ) * 100) : ℚ) / 100 else 0)
      avgVerifiedClicks :=
        some (if 0 < count then (jsRound ((verifiedClicks : ℚ) / (count : ℚ) * 100) : ℚ) / 100 else 0) }

end XLSXParser

namespace MainJS

open XLSXParser

/-- One audience-snapshot record (`{ date, activeSubscribers }`). -/
structure AudienceRecord where
  date : ℤ
  activeSubscribers : ℤ
deriving DecidableEq, Inhabited

/-- A delta indicator `{ value, direction, isAbsolute }` as produced by
`computeXLSXDeltas` in `scripts/main.js`. -/
structure Delta where
  value : ℚ
  direction : String
  isAbsolute : Bool
deriving DecidableEq

/-- The `makeDelta` closure of `computeXLSXDeltas`: `prev`/`curr` are
`agg[key] || 0` (so `null` and `0` both become 0); the value is the raw
difference for absolute (count) metrics and `diff / prev * 100` when `prev`
is truthy, else a substituted `0`; the direction is the sign of the raw
difference, with exactly zero mapped to `"neutral"`. -/
def makeDelta (prevOpt currOpt : Option ℚ) (isAbsolute : Bool) : Delta :=
  let prev := prevOpt.getD 0
  let curr := currOpt.getD 0
  let diff := curr - prev
  { value := if isAbsolute then diff else if prev ≠ 0 then diff / prev * 100 else 0
    direction := if 0 < diff then "positive" else if diff < 0 then "negative" else "neutral"
    isAbsolute := isAbsolute }

/-- The record of deltas returned by `computeXLSXDeltas`. -/
structure XDeltas where
  openRate : Delta
  ctr : Delta
  verifiedCtr : Delta
  deliveryRate : Delta
  uniqueClicks : Delta
  verifiedClicks : Delta
  activeSubscribers : Delta
deriving DecidableEq

/-- `computeXLSXDeltas` from `scripts/main.js`: sort the posts
chronologically, split at `floor(n / 2)`, aggregate each half with
`XLSXParser.aggregatePosts`, and compare per metric with `makeDelta`
(percentage deltas for the four rates, raw differences for the click
counts); the subscribers delta compares the earliest and latest audience
reading when at least two exist. -/
def computeXLSXDeltas (posts : List Post) (audience : Option (List AudienceRecord)) : XDeltas :=
  let sorted := posts.insertionSort (fun a b => a.date ≤ b.date)
  let mid := sorted.length / 2
  let firstHalf := sorted.take mid
  let secondHalf := sorted.drop mid
  let aggFirst := aggregatePosts firstHalf
  let aggSecond := aggregatePosts secondHalf
  let activeSubscribers :=
    match audience with
    | some aud =>
      if 2 ≤ aud.length then
        let sortedAud := aud.insertionSort (fun a b => a.date ≤ b.date)
        let earliest : ℚ := ((sortedAud.headI).activeSubscribers : ℚ)
        let latest : ℚ := ((sortedAud.getLastI).activeSubscribers : ℚ)
        let diff := latest - earliest
        { value := if earliest ≠ 0 then diff / earliest * 100 else 0
          direction := if 0 < diff then "positive" else if diff < 0 then "negative" else "neutral"
          isAbsolute := false }
      else { value := 0, direction := "neutral", isAbsolute := false }
    | none => { value := 0, direction := "neutral", isAbsolute := false }
  { openRate := makeDelta aggFirst.openRate aggSecond.openRate false
    ctr := makeDelta aggFirst.ctr aggSecond.ctr false
    verifiedCtr := makeDelta aggFirst.verifiedCtr aggSecond.verifiedCtr false
    deliveryRate := makeDelta aggFirst.deliveryRate aggSecond.deliveryRate false
    uniqueClicks :=
      makeDelta (some (aggFirst.uniqueClicks : ℚ)) (some (aggSecond.uniqueClicks : ℚ)) true
    verifiedClicks :=
      makeDelta (some (aggFirst.verifiedClicks : ℚ)) (some (aggSecond.verifiedClicks : ℚ)) true
    activeSubscribers := activeSubscribers }

end MainJS

namespace JSDate

/-- Short month names used by the dashboard's period keys. -/
def monthShortNames : List String :=
  ["Jan", "Feb", "Mar", "Apr", "May", "Jun", "Jul", "Aug", "Sep", "Oct", "Nov", "Dec"]

/-- Full month names, for modeling JS free-text date parsing. -/
def monthFullNames : List String :=
  ["January", "February", "March", "April", "May", "June", "July", "August",
   "September", "October", "November", "December"]

end JSDate

namespace CSVParser

open JSNum JSString

/-- The `COLUMN_MAP` table (Beehiiv export format). -/
def columnMap : String → Option String
  | "Date" => some "date"
  | "Subject or Title" => some "title"
  | "Sent" => some "sent"
  | "Delivered" => some "delivered"
  | "Total Opens" => some "totalOpens"
  | "Unique Opens" => some "uniqueOpens"
  | "Open Rate" => some "openRate"
  | "Unique Clicks" => some "uniqueClicks"
  | "Click-Through Rate" => some "ctr"
  | "Verified Unique Clicks" => some "verifiedClicks"
  | "Verified Click-Through Rate" => some "verifiedCtr"
  | "Unsubscribed" => some "unsubscribed"
  | "Unsubscribe Rate" => some "unsubscribeRate"
  | "Spam Reported" => some "spamReported"
  | "Spam Reported Rate" => some "spamRate"
  | "Web Views" => some "webViews"
  | "Web Clicks Unique" => some "webClicks"
  | "Web Click Rate" => some "webClickRate"
  | "Post ID" => some "postId"
  | "Content Tags" => some "tags"
  | "Delivery Rate" => some "deliveryRate"
  | _ => none

/-- Fallback key for unmapped headers:
`header.toLowerCase().replace(/\s+/g, '_')` (a run of whitespace becomes one
underscore). -/
def lowerUnderscore (s : String) : String :=
  String.mk (go s.toLower.data false)
where
  go : List Char → Bool → List Char
    | [], _ => []
    | c :: cs, lastWS =>
      if isWS c then
        if lastWS then go cs true else '_' :: go cs true
      else c :: go cs false

/-- Split raw CSV text as `csvText.split(/\r?\n/)` followed by
`.filter(line => line.trim())`. -/
def splitLines (s : String) : List String :=
  ((s.splitOn "\n").map stripCR).filter fun l => jsTrim l ≠ ""
where
  /-- Remove the single carriage return a `\r\n` sequence contributes. -/
  stripCR (l : String) : String :=
    match l.data.reverse with
    | '\r' :: rest => String.mk rest.reverse
    | _ => l

/-- `parseCSVLine`: split a line on unquoted commas; quote characters toggle
the in-quotes state and are dropped; every cell is trimmed. -/
def parseCSVLine (line : String) : List String :=
  go line.data [] [] false
where
  go : List Char → List Char → List String → Bool → List String
    | [], cur, acc, _ => acc ++ [jsTrim (String.mk cur.reverse)]
    | c :: cs, cur, acc, inQuotes =>
      if c = '"' then go cs cur acc !inQuotes
      else if c = ',' && !inQuotes then
        go cs [] (acc ++ [jsTrim (String.mk cur.reverse)]) inQuotes
      else go cs (c :: cur) acc inQuotes

/-- `validateHeaders`: an error for each required column (only `"Date"`)
that no lowercased/trimmed header contains nor is contained in. -/
def validateHeaders (headers : List String) : List String :=
  let normalizedHeaders := headers.map fun h => (jsTrim h).toLower
  let requiredColumns := ["Date"]
  requiredColumns.foldl
    (fun errors col =>
      let normalized := col.toLower
      if normalizedHeaders.any fun h =>
          containsSubstr h normalized || containsSubstr normalized h then
        errors
      else errors ++ ["Missing required column: \"" ++ col ++ "\""])
    []

/-- Model of `new Date(str)` for the free-text date shapes the CSV export
uses: `"Month D, YYYY"` (full or three-letter month name) and ISO
`"YYYY-MM-DD"`; anything else is an invalid date (`null` after the
`isNaN(date.getTime())` guard).  Produces the midnight timestamp of the
calendar day (timezone modeled as UTC). -/
def jsNewDate (s : String) : Option ℤ :=
  match tryISO with
  | some ms => some ms
  | none => tryMonthDayYear
where
  digitsOnly (t : String) : Bool := !t.data.isEmpty && t.data.all Char.isDigit
  tryISO : Option ℤ :=
    match s.splitOn "-" with
    | [y, m, d] =>
      if digitsOnly y && digitsOnly m && digitsOnly d then
        let mv : ℤ := (digitsVal m.data : ℤ)
        let dv : ℤ := (digitsVal d.data : ℤ)
        if 1 ≤ mv && mv ≤ 12 && 1 ≤ dv && dv ≤ 31 then
          some (JSDate.midnightUTC (digitsVal y.data : ℤ) mv dv)
        else none
      else none
    | _ => none
  monthIndex (tok : String) : Option ℤ :=
    (JSDate.monthFullNames.enum.find? fun p =>
        p.2 = tok ∨ String.mk (p.2.data.take 3) = tok).map fun p => (p.1 : ℤ) + 1
  tryMonthDayYear : Option ℤ :=
    match ((JSString.jsTrim s).splitOn " ").filter (fun t => t ≠ "") with
    | [mon, dayTok, yearTok] =>
      let dayTok := match dayTok.data.reverse with
        | ',' :: rest => String.mk rest.reverse
        | _ => dayTok
      match monthIndex mon with
      | some m =>
        if digitsOnly dayTok && digitsOnly yearTok then
          let dv : ℤ := (digitsVal dayTok.data : ℤ)
          if 1 ≤ dv && dv ≤ 31 then
            some (JSDate.midnightUTC (digitsVal yearTok.data : ℤ) m dv)
          else none
        else none
      | none => none
    | _ => none

/-- `parseDate`: empty string is `null`; otherwise `new Date(str)` with
invalid dates mapped to `null`. -/
def parseDate (s : String) : Option ℤ :=
  if s = "" then none else jsNewDate s

/-- `parsePercentage`: `""` and `"#DIV/0!"` are `null`; otherwise the first
`%` and the first `,` are removed and the remainder parsed with
`parseFloat` (`null` when that yields `NaN`).  Note: no fraction-to-percent
rescaling happens on this path. -/
def parsePercentage (s : String) : Option ℚ :=
  if s = "" ∨ s = "#DIV/0!" then none
  else parseFloatQ (removeFirst ',' (removeFirst '%' s))

/-- `parseNumber`: `""` is `null`; otherwise all commas are removed and the
remainder parsed with `parseInt(·, 10)` (`null` when that yields `NaN`). -/
def parseNumber (s : String) : Option ℤ :=
  if s = "" then none
  else parseIntJS (String.mk (s.data.filter fun c => c ≠ ','))

/-- A typed cell value of a mapped CSV row object. -/
inductive CellVal where
  | date (v : Option ℤ)
  | numI (v : Option ℤ)
  | pct (v : Option ℚ)
  | str (s : String)
deriving DecidableEq

/-- Read a property of a row object; the last assignment wins, as JS
property assignment overwrites. -/
def objGet (obj : List (String × CellVal)) (k : String) : Option CellVal :=
  ((obj.filter fun p => p.1 = k).getLast?).map Prod.snd

/-- The headers parsed as percentages (by original header name). -/
def percentageColumns : List String :=
  ["Open Rate", "Click-Through Rate", "Verified Click-Through Rate",
   "Unsubscribe Rate", "Spam Reported Rate", "Web Click Rate", "Delivery Rate"]

/-- The keys parsed as numbers (by mapped key). -/
def numberKeys : List String :=
  ["sent", "delivered", "uniqueOpens", "uniqueClicks",
   "verifiedClicks", "unsubscribed", "totalOpens", "webViews", "webClicks", "spamReported"]

/-- `mapRowToObject`: each header is mapped to its key and its (typed)
parsed value; a missing cell reads as `''`; rows whose date is `null` are
dropped (the function returns `null`). -/
def mapRowToObject (headers : List String) (values : List String) :
    Option (List (String × CellVal)) :=
  let obj := headers.enum.map fun p =>
    let header := p.2
    let index := p.1
    let key := (columnMap header).getD (lowerUnderscore header)
    let value := values.getD index ""
    let tv : CellVal :=
      if key = "date" then CellVal.date (parseDate value)
      else if percentageColumns.contains header then CellVal.pct (parsePercentage value)
      else if numberKeys.contains key then CellVal.numI (parseNumber value)
      else CellVal.str value
    (key, tv)
  match objGet obj "date" with
  | some (CellVal.date (some _)) => some obj
  | _ => none

/-- Result shape of `CSVParser.parse`. -/
structure ParseResult where
  headers : List String
  rows : List (List (String × CellVal))
  errors : List String
deriving DecidableEq

/-- `parse`: split into non-blank lines; fewer than 2 lines is an error
with zero rows; the first line is the header row; a failed header
validation yields the errors and zero rows; otherwise each further line is
parsed and mapped, dropping rows without a parseable date. -/
def parse (csvText : String) : ParseResult :=
  let lines := splitLines csvText
  if lines.length < 2 then
    { headers := [], rows := [], errors := ["CSV file is empty or has no data rows"] }
  else
    let headers := parseCSVLine (lines.getD 0 "")
    let errors := validateHeaders headers
    if errors ≠ [] then { headers := headers, rows := [], errors := errors }
    else
      { headers := headers
        rows := (lines.drop 1).filterMap fun line => mapRowToObject headers (parseCSVLine line)
        errors := errors }

end CSVParser

namespace CSVParser

/-- A parsed CSV data row as the aggregation functions read it: count
columns may be `null` (unparseable), rate columns may be `null`. -/
structure Row where
  date : Option ℤ := none
  sent : Option ℤ := none
  delivered : Option ℤ := none
  totalOpens : Option ℤ := none
  uniqueOpens : Option ℤ := none
  uniqueClicks : Option ℤ := none
  verifiedClicks : Option ℤ := none
  unsubscribed : Option ℤ := none
  openRate : Option ℚ := none
  ctr : Option ℚ := none
  verifiedCtr : Option ℚ := none
  deliveryRate : Option ℚ := none
deriving DecidableEq

/-- `average` from the CSV parser module: `null` on an empty array, else
the arithmetic mean. -/
def average (arr : List ℚ) : Option ℚ :=
  match arr with
  | [] => none
  | _ => some (arr.sum / (arr.length : ℚ))

/-- Result shape of `calculateCurrentKPIs`; all fields are absent on empty
input (the function returns `{}`). -/
structure KPIs where
  activeSubscribers : Option ℚ := none
  openRate : Option ℚ := none
  ctr : Option ℚ := none
  verifiedCtr : Option ℚ := none
  deliveryRate : Option ℚ := none
  uniqueClicks : Option ℚ := none
  verifiedClicks : Option ℚ := none
deriving DecidableEq

/-- `calculateCurrentKPIs`: totals of the click/delivery counts, arithmetic
means of the per-row rates (over the non-`null` entries), and
`activeSubscribers` from the latest row's `delivered` count with an
average-delivered fallback.  Empty input gives the empty object. -/
def calculateCurrentKPIs (rows : List Row) : KPIs :=
  match rows with
  | [] => {}
  | r0 :: rest =>
    let latest := (r0 :: rest).getLast (List.cons_ne_nil r0 rest)
    let totalDelivered : ℤ := (rows.map fun r => r.delivered.getD 0).sum
    let totalClicks : ℤ := (rows.map fun r => r.uniqueClicks.getD 0).sum
    let totalVerifiedClicks : ℤ := (rows.map fun r => r.verifiedClicks.getD 0).sum
    { activeSubscribers :=
        some (if latest.delivered.getD 0 ≠ 0 then (latest.delivered.getD 0 : ℚ)
              else (totalDelivered : ℚ) / (rows.length : ℚ))
      openRate := average (rows.filterMap Row.openRate)
      ctr := average (rows.filterMap Row.ctr)
      verifiedCtr := average (rows.filterMap Row.verifiedCtr)
      deliveryRate := average (rows.filterMap Row.deliveryRate)
      uniqueClicks := some (totalClicks : ℚ)
      verifiedClicks := some (totalVerifiedClicks : ℚ) }

/-- The `delta` closure of `calculateDeltas`: missing KPIs read as 0; rate
deltas are percentages of the first-half KPI when it is truthy, with a
substituted `0` otherwise; direction is the sign of the raw difference. -/
def deltaKPI (firstV secondV : Option ℚ) (isAbsolute : Bool) : MainJS.Delta :=
  let f := firstV.getD 0
  let diff := secondV.getD 0 - f
  { value := if isAbsolute then diff else if f ≠ 0 then diff / f * 100 else 0
    direction := if 0 < diff then "positive" else if diff < 0 then "negative" else "neutral"
    isAbsolute := isAbsolute }

/-- The record of deltas returned by `CSVParser.calculateDeltas`. -/
structure CSVDeltas where
  activeSubscribers : MainJS.Delta
  openRate : MainJS.Delta
  ctr : MainJS.Delta
  verifiedCtr : MainJS.Delta
  deliveryRate : MainJS.Delta
  uniqueClicks : MainJS.Delta
  verifiedClicks : MainJS.Delta
deriving DecidableEq

/-- `calculateDeltas` from the CSV parser module: split the rows at
`floor(n / 2)`, compute `calculateCurrentKPIs` on each half (arithmetic-mean
KPIs, not the weighted aggregator), and compare per metric. -/
def calculateDeltas (rows : List Row) : CSVDeltas :=
  let midpoint := rows.length / 2
  let firstHalf := rows.take midpoint
  let secondHalf := rows.drop midpoint
  let first := calculateCurrentKPIs firstHalf
  let second := calculateCurrentKPIs secondHalf
  { activeSubscribers := deltaKPI first.activeSubscribers second.activeSubscribers false
    openRate := deltaKPI first.openRate second.openRate false
    ctr := deltaKPI first.ctr second.ctr false
    verifiedCtr := deltaKPI first.verifiedCtr second.verifiedCtr false
    deliveryRate := deltaKPI first.deliveryRate second.deliveryRate false
    uniqueClicks := deltaKPI first.uniqueClicks second.uniqueClicks true
    verifiedClicks := deltaKPI first.verifiedClicks second.verifiedClicks true }

/-- `getPeriodKey`: `"daily"` gives `"Mon D"`, `"weekly"` the `"Mon D"` of
the week's Sunday (`d.getDate() - d.getDay()`), `"monthly"` (and default)
the short month name. -/
def getPeriodKey (dateMs : ℤ) (period : String) : String :=
  if period = "daily" then
    JSDate.monthShortNames.getD (JSDate.getMonth dateMs).toNat "" ++ " " ++
      toString (JSDate.getDate dateMs)
  else if period = "weekly" then
    let day := JSDate.dayOfMs dateMs
    let weekStart := day - JSDate.utcDayOfWeek day
    JSDate.monthShortNames.getD ((JSDate.civilFromDays weekStart).2.1 - 1).toNat "" ++ " " ++
      toString (JSDate.civilFromDays weekStart).2.2
  else
    JSDate.monthShortNames.getD (JSDate.getMonth dateMs).toNat ""

/-- The accumulating group of `aggregateByPeriod`: summed counts plus the
collected truthy per-row rates. -/
structure Group where
  label : String
  date : ℤ
  posts : ℤ
  sent : ℤ
  delivered : ℤ
  uniqueOpens : ℤ
  uniqueClicks : ℤ
  verifiedClicks : ℤ
  unsubscribed : ℤ
  openRates : List ℚ
  ctrs : List ℚ
  verifiedCtrs : List ℚ
  deliveryRates : List ℚ
deriving DecidableEq

/-- A finished period group: the group plus its rate fields, each the
arithmetic mean (`average`) of the collected per-row rates. -/
structure PeriodGroup extends Group where
  openRate : Option ℚ
  ctr : Option ℚ
  verifiedCtr : Option ℚ
  deliveryRate : Option ℚ
deriving DecidableEq

/-- Update the entry of an insertion-ordered string-keyed object, creating
it from `init` when absent (JS object semantics). -/
def updateAssoc {β : Type} (l : List (String × β)) (k : String) (f : β → β) (init : β) :
    List (String × β) :=
  match l with
  | [] => [(k, f init)]
  | (k', v) :: rest =>
    if k' = k then (k', f v) :: rest else (k', v) :: updateAssoc rest k f init

/-- `aggregateByPeriod`: group rows by period key; counts are summed into
the group while each truthy rate is pushed onto a list; the group's rate is
then the ARITHMETIC MEAN of those per-row rates (`average`), not a ratio of
the summed counts.  Output is sorted by each group's first date. -/
def aggregateByPeriod (rows : List Row) (period : String) : List PeriodGroup :=
  let groups := rows.foldl
    (fun groups row =>
      match row.date with
      | none => groups
      | some dt =>
        let key := getPeriodKey dt period
        let init : Group :=
          { label := key, date := dt, posts := 0, sent := 0, delivered := 0
            uniqueOpens := 0, uniqueClicks := 0, verifiedClicks := 0, unsubscribed := 0
            openRates := [], ctrs := [], verifiedCtrs := [], deliveryRates := [] }
        let pushRate : Option ℚ → List ℚ → List ℚ := fun v l =>
          match v with
          | some r => if r ≠ 0 then l ++ [r] else l
          | none => l
        updateAssoc groups key
          (fun g =>
            { g with
              posts := g.posts + 1
              sent := g.sent + row.sent.getD 0
              delivered := g.delivered + row.delivered.getD 0
              uniqueOpens := g.uniqueOpens + row.uniqueOpens.getD 0
              uniqueClicks := g.uniqueClicks + row.uniqueClicks.getD 0
              verifiedClicks := g.verifiedClicks + row.verifiedClicks.getD 0
              unsubscribed := g.unsubscribed + row.unsubscribed.getD 0
              openRates := pushRate row.openRate g.openRates
              ctrs := pushRate row.ctr g.ctrs
              verifiedCtrs := pushRate row.verifiedCtr g.verifiedCtrs
              deliveryRates := pushRate row.deliveryRate g.deliveryRates })
          init)
    []
  (groups.map fun p =>
    { toGroup := p.2
      openRate := average p.2.openRates
      ctr := average p.2.ctrs
      verifiedCtr := average p.2.verifiedCtrs
      deliveryRate := average p.2.deliveryRates }).insertionSort
    fun a b => a.date ≤ b.date

end CSVParser

namespace DataService

open XLSXParser MainJS

/-- Code-unit lexicographic string order, as JS default array `sort()`
compares strings. -/
def strLe (a b : String) : Bool :=
  go a.data b.data
where
  go : List Char → List Char → Bool
    | [], _ => true
    | _ :: _, [] => false
    | x :: xs, y :: ys => if x < y then true else if y < x then false else go xs ys

/-- `getISOWeek` from the data module: shift the date to the Thursday of
its week (`+ 4 - (getUTCDay() || 7)`), take that day's year, and count
weeks from that year's Jan 1 with `Math.ceil((dayDiff + 1) / 7)`.
Returns `(year, week)`. -/
def getISOWeek (dms : ℤ) : ℤ × ℤ :=
  let day := JSDate.dayOfMs dms
  let dow := JSDate.utcDayOfWeek day
  let thursday := day + 4 - (if dow = 0 then 7 else dow)
  let isoYear := (JSDate.civilFromDays thursday).1
  let yearStart := JSDate.daysFromCivil isoYear 1 1
  (isoYear, Int.ediv (thursday - yearStart + 1 + 6) 7)

/-- `weekKey`: sortable `"YYYY-W##"` key of a date's ISO week (week number
left-padded to two digits). -/
def weekKey (dms : ℤ) : String :=
  let p := getISOWeek dms
  toString p.1 ++ "-W" ++ (if p.2 < 10 then "0" ++ toString p.2 else toString p.2)

/-- The three XLSX data stores as held by the data service (each `null`
when its sheet was missing). -/
structure XlsxStores where
  posts : Option (List Post) := none
  growth : Option (List CSVParser.Row) := none
  audience : Option (List AudienceRecord) := none

/-- The data service's `filterByDateRange` (module state made explicit):
no filter passes everything through; a filter keeps items with a truthy
date inside the inclusive window. -/
def filterByDateRange (dateRangeFilter : Option (ℤ × ℤ)) (items : List Post) : List Post :=
  match dateRangeFilter with
  | none => items
  | some (startDate, endDate) =>
    items.filter fun item => item.date ≠ 0 ∧ startDate ≤ item.date ∧ item.date ≤ endDate

/-- Property read `post[field]` for the sparkline metrics: the outer
`Option` is JS `undefined` (unknown property), the inner one `null`.
String-valued properties (title, tags) are modeled as absent: both
branches of `getSparkline` skip them (`isNaN` on a non-numeric string). -/
def postField (p : Post) : String → Option (Option ℚ)
  | "date" => some (some (p.date : ℚ))
  | "sent" => some (some (p.sent : ℚ))
  | "delivered" => some (some (p.delivered : ℚ))
  | "totalOpens" => some (some (p.totalOpens : ℚ))
  | "uniqueOpens" => some (some (p.uniqueOpens : ℚ))
  | "uniqueClicks" => some (some (p.uniqueClicks : ℚ))
  | "verifiedClicks" => some (some (p.verifiedClicks : ℚ))
  | "unsubscribed" => some (some (p.unsubscribed : ℚ))
  | "openRate" => some p.openRate
  | "ctr" => some p.ctr
  | "verifiedCtr" => some p.verifiedCtr
  | "deliveryRate" => some p.deliveryRate
  | "unsubscribeRate" => some p.unsubscribeRate
  | _ => none

/-- The sparkline metric-name table of `getSparkline`. -/
def sparkMetricMap (metric : String) : String :=
  match metric with
  | "openRate" => "openRate"
  | "open-rate" => "openRate"
  | "ctr" => "ctr"
  | "verified-ctr" => "verifiedCtr"
  | "verifiedCtr" => "verifiedCtr"
  | "delivery-rate" => "deliveryRate"
  | "deliveryRate" => "deliveryRate"
  | "unique-clicks" => "uniqueClicks"
  | "uniqueClicks" => "uniqueClicks"
  | "verified-clicks" => "verifiedClicks"
  | "verifiedClicks" => "verifiedClicks"
  | other => other

/-- `arr.slice(-Math.min(k, arr.length))`: the last `min k n` elements. -/
def lastN {α : Type} (k : ℕ) (l : List α) : List α :=
  l.drop (l.length - min k l.length)

/-- `getSparkline` (module state and the CSV/mock fallback made explicit
parameters).  For the `activeSubscribers` metric with audience data, the
last reading per ISO week (weekly) or the raw series.  From posts data:
weekly buckets sum the metric and count contributors, and for the four
rate metrics the bucket value is `sum / count` — the ARITHMETIC MEAN of
the per-post rate fields (a `null` rate contributes 0 to the sum and 1 to
the count); non-weekly returns the per-post series.  Values are the last
16 (weekly) / 12 (otherwise) entries. -/
def getSparkline (xlsxData : Option XlsxStores) (dateRangeFilter : Option (ℤ × ℤ))
    (fallbackSparkline : String → List (Option ℚ)) (metric period : String) :
    List (Option ℚ) :=
  let audienceBranch : Option (List (Option ℚ)) :=
    if metric = "activeSubscribers" then
      match xlsxData with
      | some stores =>
        match stores.audience with
        | some aud =>
          if aud ≠ [] then
            let audience := aud.insertionSort fun a b => a.date ≤ b.date
            if period = "weekly" then
              let weekBuckets := audience.foldl
                (fun buckets a =>
                  CSVParser.updateAssoc buckets (weekKey a.date)
                    (fun _ => a.activeSubscribers) a.activeSubscribers)
                []
              let sortedKeys := (weekBuckets.map Prod.fst).insertionSort
                fun a b => strLe a b = true
              let values := sortedKeys.filterMap fun k =>
                (weekBuckets.find? fun p => p.1 = k).map fun p => (p.2 : ℚ)
              some (lastN 16 (values.map some))
            else
              some (lastN 12 (audience.map fun a => some (a.activeSubscribers : ℚ)))
          else none
        | none => none
      | none => none
    else none
  match audienceBranch with
  | some res => res
  | none => getSparklinePosts xlsxData dateRangeFilter fallbackSparkline metric period
where
  /-- The posts branch and the fallback of `getSparkline`. -/
  getSparklinePosts (xlsxData : Option XlsxStores) (dateRangeFilter : Option (ℤ × ℤ))
      (fallbackSparkline : String → List (Option ℚ)) (metric period : String) :
      List (Option ℚ) :=
    match xlsxData with
    | some stores =>
      match stores.posts with
      | some ps =>
        if ps ≠ [] then
          let posts := (filterByDateRange dateRangeFilter ps).insertionSort
            fun a b => a.date ≤ b.date
          let field := sparkMetricMap metric
          if period = "weekly" then
            let isRate := field ∈ ["openRate", "ctr", "verifiedCtr", "deliveryRate"]
            let weekBuckets := posts.foldl
              (fun buckets p =>
                match postField p field with
                | none => buckets
                | some v =>
                  CSVParser.updateAssoc buckets (weekKey p.date)
                    (fun sc => (sc.1 + v.getD 0, sc.2 + 1)) ((0 : ℚ), (0 : ℤ)))
              []
            let sortedKeys := (weekBuckets.map Prod.fst).insertionSort
              fun a b => strLe a b = true
            let values := sortedKeys.filterMap fun k =>
              (weekBuckets.find? fun p => p.1 = k).map fun p =>
                if isRate then p.2.1 / (p.2.2 : ℚ) else p.2.1
            lastN 16 (values.map some)
          else
            lastN 12 ((posts.map fun p => postField p field).filterMap id)
        else fallbackSparkline metric
      | none => fallbackSparkline metric
    | none => fallbackSparkline metric

end DataService

namespace InsightEngine

/-- Result shape of `calculateTrend`. -/
structure Trend where
  slope : ℚ
  direction : String
  strength : String
deriving DecidableEq

/-- `calculateTrend` from `scripts/insight-engine.js`: fewer than 2 values
give `{ 0, neutral, none }`; otherwise the least-squares slope over indices
`0 … n-1` (computational formula), normalized by the mean value to a
percentage (with a substituted 0 when the mean is 0), classified
`up`/`down` at ±1 and `strong`/`moderate`/`weak` at 5/2. -/
def calculateTrend (values : List ℚ) : Trend :=
  if values.length < 2 then { slope := 0, direction := "neutral", strength := "none" }
  else
    let len := values.length
    let n : ℚ := (len : ℚ)
    let sumX : ℚ := ∑ i ∈ Finset.range len, (i : ℚ)
    let sumY : ℚ := ∑ i ∈ Finset.range len, values.getD i 0
    let sumXY : ℚ := ∑ i ∈ Finset.range len, (i : ℚ) * values.getD i 0
    let sumX2 : ℚ := ∑ i ∈ Finset.range len, (i : ℚ) * (i : ℚ)
    let slope := (n * sumXY - sumX * sumY) / (n * sumX2 - sumX * sumX)
    let avgValue := sumY / n
    let normalizedSlope := if avgValue ≠ 0 then slope / avgValue * 100 else 0
    { slope := normalizedSlope
      direction :=
        if 1 < normalizedSlope then "up"
        else if normalizedSlope < -1 then "down"
        else "neutral"
      strength :=
        if 5 < |normalizedSlope| then "strong"
        else if 2 < |normalizedSlope| then "moderate"
        else "weak" }

/-- `average` from `scripts/insight-engine.js`: note the substituted `0`
(not `null`) on an empty array. -/
def average (arr : List ℚ) : ℚ :=
  match arr with
  | [] => 0
  | _ => arr.sum / (arr.length : ℚ)

/-- `recent.map(r => r.f).filter(Boolean)`: the truthy (non-`null`,
non-zero) entries. -/
def truthyQ (l : List (Option ℚ)) : List ℚ :=
  (l.filterMap id).filter fun v => v ≠ 0

/-- Integer variant of `truthyQ`, cast to numbers. -/
def truthyZ (l : List (Option ℤ)) : List ℚ :=
  ((l.filterMap id).filter fun v => v ≠ 0).map fun v => (v : ℚ)

/-- Result shape of `calculateBaselines`. -/
structure Baselines where
  openRate : ℚ
  ctr : ℚ
  verifiedCtr : ℚ
  deliveryRate : ℚ
  uniqueClicks : ℚ
  delivered : ℚ
  period : ℤ
  dataPoints : ℤ
deriving DecidableEq

/-- `calculateBaselines` (the current time made an explicit parameter):
`null` when there are no rows in the trailing window; otherwise the
arithmetic `average` of each metric's truthy entries — which is a
substituted `0` (not `null`) when a metric has no truthy entry in a
non-empty window. -/
def calculateBaselines (rows : List CSVParser.Row) (days now : ℤ) : Option Baselines :=
  match rows with
  | [] => none
  | _ =>
    let cutoff := now - days * 24 * 60 * 60 * 1000
    let recentRows := rows.filter fun r => cutoff ≤ r.date.getD 0
    match recentRows with
    | [] => none
    | _ =>
      some
        { openRate := average (truthyQ (recentRows.map CSVParser.Row.openRate))
          ctr := average (truthyQ (recentRows.map CSVParser.Row.ctr))
          verifiedCtr := average (truthyQ (recentRows.map CSVParser.Row.verifiedCtr))
          deliveryRate := average (truthyQ (recentRows.map CSVParser.Row.deliveryRate))
          uniqueClicks := average (truthyZ (recentRows.map CSVParser.Row.uniqueClicks))
          delivered := average (truthyZ (recentRows.map CSVParser.Row.delivered))
          period := days
          dataPoints := recentRows.length }

end InsightEngine

/-!
## Specification-side definitions and concrete fixtures

`meanQ`/`olsSlope` are the spec's wording of the trend computation
(centered least-squares), to be compared with the code's computational
formula.  `specDeltaOpenRate` is the delta computation as §4.7 of the spec
words it (each half aggregated by the weighted Aggregator of §4.3), to be
compared with the CSV module's `calculateDeltas`.  The `sample…` fixtures
are concrete inputs used by counterexamples and witnesses.
-/

/-- Arithmetic mean of a value sequence (spec wording). -/
def meanQ (values : List ℚ) : ℚ := values.sum / (values.length : ℚ)

/-- Ordinary-least-squares slope of a value sequence over positions
`0 … n-1`, in the centered form `Σ(xᵢ-x̄)(yᵢ-ȳ) / Σ(xᵢ-x̄)²`
(spec wording: "ordinary least-squares slope of a metric over an ordered
value sequence"). -/
def olsSlope (values : List ℚ) : ℚ :=
  let n := values.length
  let xbar : ℚ := (∑ i ∈ Finset.range n, (i : ℚ)) / (n : ℚ)
  let ybar : ℚ := meanQ values
  (∑ i ∈ Finset.range n, ((i : ℚ) - xbar) * (values.getD i 0 - ybar)) /
    (∑ i ∈ Finset.range n, ((i : ℚ) - xbar) * ((i : ℚ) - xbar))

/-- Modelled from the spec's wording of §4.7 + §4.3 (what the claim asserts
`calculateDeltas` does for the open rate): split at `floor(n/2)`, aggregate
each half's open rate as the ratio of its summed counts (`null` on a zero
denominator), and compare with `makeDelta`. -/
def specDeltaOpenRate (rows : List CSVParser.Row) : MainJS.Delta :=
  let mid := rows.length / 2
  let agg : List CSVParser.Row → Option ℚ := fun half =>
    let d := (half.map fun r => r.delivered.getD 0).sum
    if 0 < d then
      some (((half.map fun r => r.uniqueOpens.getD 0).sum : ℚ) / (d : ℚ) * 100)
    else none
  MainJS.makeDelta (agg (rows.take mid)) (agg (rows.drop mid)) false

/-- Post A: 100 delivered, 90 unique opens (open rate 90%). -/
def samplePostA : XLSXParser.Post :=
  { date := JSDate.noonUTC 2024 1 2, delivered := 100, uniqueOpens := 90, openRate := some 90 }

/-- Post B: 900 delivered, 90 unique opens (open rate 10%), same ISO week
and calendar month as `samplePostA`. -/
def samplePostB : XLSXParser.Post :=
  { date := JSDate.noonUTC 2024 1 3, delivered := 900, uniqueOpens := 90, openRate := some 10 }

/-- A post with zero delivered (so its aggregate open rate is `null`). -/
def zeroDeliveredPost : XLSXParser.Post := { date := JSDate.noonUTC 2024 1 1 }

/-- CSV rows mirroring `samplePostA`/`samplePostB`, plus two uniform
50%-rate rows in a later month; the four together make the first half's
mean and weighted open rates differ while the second half's agree. -/
def sampleRowA : CSVParser.Row :=
  { date := some (JSDate.midnightUTC 2024 1 2), delivered := some 100,
    uniqueOpens := some 90, openRate := some 90 }

/-- See `sampleRowA`. -/
def sampleRowB : CSVParser.Row :=
  { date := some (JSDate.midnightUTC 2024 1 3), delivered := some 900,
    uniqueOpens := some 90, openRate := some 10 }

/-- See `sampleRowA`. -/
def sampleRowC : CSVParser.Row :=
  { date := some (JSDate.midnightUTC 2024 2 6), delivered := some 100,
    uniqueOpens := some 50, openRate := some 50 }

/-- See `sampleRowA`. -/
def sampleRowD : CSVParser.Row :=
  { date := some (JSDate.midnightUTC 2024 2 7), delivered := some 100,
    uniqueOpens := some 50, openRate := some 50 }

/-- A CSV row carrying a date but only `null` metrics. -/
def nullMetricsRow : CSVParser.Row := { date := some 0 }

/-- C5: week bucket keys follow ISO-8601 week numbering.  Monday Jan 1 2024
(day of week 1) and Sunday Jan 7 2024 (day of week 0) receive the same week
key `2024-W01`; Monday Jan 1 2018 is keyed `2018-W01`; and the week
containing Jan 1 2027 is keyed to the prior ISO year (`2026-W53`). -/
theorem c5_iso_week_bucketing :
    JSDate.utcDayOfWeek (JSDate.daysFromCivil 2024 1 1) = 1 ∧
    JSDate.utcDayOfWeek (JSDate.daysFromCivil 2024 1 7) = 0 ∧
    DataService.weekKey (JSDate.noonUTC 2024 1 1) = "2024-W01" ∧
    DataService.weekKey (JSDate.noonUTC 2024 1 7) = "2024-W01" ∧
    DataService.weekKey (JSDate.noonUTC 2018 1 1) = "2018-W01" ∧
    DataService.weekKey (JSDate.noonUTC 2027 1 1) = "2026-W53" := by
  decide

/-- C6: for every positive integer spreadsheet serial `s`, `excelDateToJS`
returns the timestamp `(s - 25569) · 86400000 + 43200000`, whose calendar
day is exactly `s` days after the Excel 1900 epoch 1899-12-30 (which is day
`-25569`, i.e. `serial - 25569` days since 1970-01-01) and whose time of
day is exactly 12:00 UTC; a non-numeric or missing serial gives `null`. -/
theorem c6_excel_serial_dates (s : ℤ) (h : 1 ≤ s) :
    XLSXParser.excelDateToJS (XLSXParser.RawCell.num (s : ℚ)) =
      some (((s - 25569) * JSDate.msPerDay + 43200000 : ℤ) : ℚ) ∧
    JSDate.daysFromCivil 1899 12 30 = -25569 ∧
    JSDate.dayOfMs ((s - 25569) * JSDate.msPerDay + 43200000) =
      JSDate.daysFromCivil 1899 12 30 + s ∧
    Int.emod ((s - 25569) * JSDate.msPerDay + 43200000) JSDate.msPerDay = 43200000 ∧
    (∀ t : String, XLSXParser.excelDateToJS (XLSXParser.RawCell.str t) = none) ∧
    XLSXParser.excelDateToJS XLSXParser.RawCell.null = none := by
  have hepoch : JSDate.daysFromCivil 1899 12 30 = -25569 := by decide
  refine ⟨?_, hepoch, ?_, ?_, fun t => rfl, rfl⟩
  · have hs : (s : ℚ) ≠ 0 := by
      exact_mod_cast (by omega : s ≠ 0)
    show (if (s : ℚ) = 0 then none else some (((s : ℚ) - 25569) * 86400 * 1000 + 43200000)) = _
    rw [if_neg hs]
    congr 1
    push_cast [JSDate.msPerDay]
    ring
  · rw [hepoch]
    show ((s - 25569) * JSDate.msPerDay + 43200000) / JSDate.msPerDay = -25569 + s
    rw [show (s - 25569) * JSDate.msPerDay + 43200000 =
          43200000 + (s - 25569) * JSDate.msPerDay from by ring,
        Int.add_mul_ediv_right _ _ (by decide : JSDate.msPerDay ≠ 0),
        show (43200000 : ℤ) / JSDate.msPerDay = 0 from by decide]
    ring
  · rw [show (s - 25569) * JSDate.msPerDay + 43200000 =
          43200000 + (s - 25569) * JSDate.msPerDay from by ring]
    show (43200000 + (s - 25569) * JSDate.msPerDay) % JSDate.msPerDay = 43200000
    rw [Int.add_mul_emod_self]
    decide

/-- C6 witness: the theorem instantiated at serial 43977 (2020-05-26). -/
theorem c6_excel_serial_dates_witness :
    (1 : ℤ) ≤ 43977 ∧
      XLSXParser.excelDateToJS (XLSXParser.RawCell.num ((43977 : ℤ) : ℚ)) =
        some ((((43977 : ℤ) - 25569) * JSDate.msPerDay + 43200000 : ℤ) : ℚ) :=
  ⟨by decide, (c6_excel_serial_dates 43977 (by decide)).1⟩

/-- C3 counterexample: on the bulk-text (CSV) ingestion path, a raw rate of
`0.452` is NOT multiplied by 100 — `parsePercentage` returns `0.452`
unchanged, not the `45.2` the claim asserts for both paths. -/
theorem c3_percentage_normalization_counterexample :
    CSVParser.parsePercentage "0.452" = some (452 / 1000) ∧ (452 / 1000 : ℚ) ≠ 452 / 10 := by
  constructor
  · with_unfolding_all rfl
  · with_unfolding_all decide

/-- C3 amended: on the spreadsheet path, `toPercentage` multiplies a parsed
value ≤ 1 by 100 and keeps larger values as-is, and maps `"#DIV/0!"`, the
empty string and `null` to `null`; on the CSV path, `parsePercentage`
strips the first `%`/`,` and parses, with NO fraction rescaling (0.452
stays 0.452), and maps `"#DIV/0!"` and the empty string to `null`. -/
theorem c3_percentage_normalization_amended :
    (∀ q : ℚ, XLSXParser.toPercentage (XLSXParser.RawCell.num q) =
      some (if q ≤ 1 then q * 100 else q)) ∧
    XLSXParser.toPercentage (XLSXParser.RawCell.str "0.452") = some (452 / 10) ∧
    XLSXParser.toPercentage (XLSXParser.RawCell.num (452 / 10)) = some (452 / 10) ∧
    XLSXParser.toPercentage (XLSXParser.RawCell.str "#DIV/0!") = none ∧
    XLSXParser.toPercentage (XLSXParser.RawCell.str "") = none ∧
    XLSXParser.toPercentage XLSXParser.RawCell.null = none ∧
    CSVParser.parsePercentage "0.452" = some (452 / 1000) ∧
    CSVParser.parsePercentage "45.2" = some (452 / 10) ∧
    CSVParser.parsePercentage "68.2%" = some (682 / 10) ∧
    CSVParser.parsePercentage "#DIV/0!" = none ∧
    CSVParser.parsePercentage "" = none := by
  refine ⟨fun q => rfl, ?_, ?_, ?_, ?_, rfl, ?_, ?_, ?_, ?_, ?_⟩ <;>
    with_unfolding_all decide

namespace XLSXParser

/-- Unfolding lemma: the open rate of a non-empty aggregation. -/
lemma aggregatePosts_openRate (posts : List Post) (h : posts ≠ []) :
    (aggregatePosts posts).openRate =
      if 0 < (posts.map Post.delivered).sum then
        some ((JSNum.jsRound (((posts.map Post.uniqueOpens).sum : ℚ) /
            ((posts.map Post.delivered).sum : ℚ) * 10000) : ℚ) / 100)
      else none := by
  obtain ⟨p, ps, rfl⟩ := List.exists_cons_of_ne_nil h
  rfl

/-- Unfolding lemma: the click-through rate of a non-empty aggregation. -/
lemma aggregatePosts_ctr (posts : List Post) (h : posts ≠ []) :
    (aggregatePosts posts).ctr =
      if 0 < (posts.map Post.uniqueOpens).sum then
        some ((JSNum.jsRound (((posts.map Post.uniqueClicks).sum : ℚ) /
            ((posts.map Post.uniqueOpens).sum : ℚ) * 10000) : ℚ) / 100)
      else none := by
  obtain ⟨p, ps, rfl⟩ := List.exists_cons_of_ne_nil h
  rfl

/-- Unfolding lemma: the verified click-through rate of a non-empty
aggregation. -/
lemma aggregatePosts_verifiedCtr (posts : List Post) (h : posts ≠ []) :
    (aggregatePosts posts).verifiedCtr =
      if 0 < (posts.map Post.uniqueOpens).sum then
        some ((JSNum.jsRound (((posts.map Post.verifiedClicks).sum : ℚ) /
            ((posts.map Post.uniqueOpens).sum : ℚ) * 10000) : ℚ) / 100)
      else none := by
  obtain ⟨p, ps, rfl⟩ := List.exists_cons_of_ne_nil h
  rfl

/-- Unfolding lemma: the delivery rate of a non-empty aggregation. -/
lemma aggregatePosts_deliveryRate (posts : List Post) (h : posts ≠ []) :
    (aggregatePosts posts).deliveryRate =
      if 0 < (posts.map Post.sent).sum then
        some ((JSNum.jsRound (((posts.map Post.delivered).sum : ℚ) /
            ((posts.map Post.sent).sum : ℚ) * 10000) : ℚ) / 100)
      else none := by
  obtain ⟨p, ps, rfl⟩ := List.exists_cons_of_ne_nil h
  rfl

/-- Unfolding lemma: the per-post unique-click average of a non-empty
aggregation. -/
lemma aggregatePosts_avgUniqueClicks (posts : List Post) (h : posts ≠ []) :
    (aggregatePosts posts).avgUniqueClicks =
      some (if 0 < (posts.length : ℤ) then
        (JSNum.jsRound (((posts.map Post.uniqueClicks).sum : ℚ) /
          ((posts.length : ℤ) : ℚ) * 100) : ℚ) / 100 else 0) := by
  obtain ⟨p, ps, rfl⟩ := List.exists_cons_of_ne_nil h
  rfl

/-- Unfolding lemma: the per-post verified-click average of a non-empty
aggregation. -/
lemma aggregatePosts_avgVerifiedClicks (posts : List Post) (h : posts ≠ []) :
    (aggregatePosts posts).avgVerifiedClicks =
      some (if 0 < (posts.length : ℤ) then
        (JSNum.jsRound (((posts.map Post.verifiedClicks).sum : ℚ) /
          ((posts.length : ℤ) : ℚ) * 100) : ℚ) / 100 else 0) := by
  obtain ⟨p, ps, rfl⟩ := List.exists_cons_of_ne_nil h
  rfl

/-- Unfolding lemma: the empty aggregation has `null` rates and absent
averages. -/
lemma aggregatePosts_nil :
    aggregatePosts [] =
      { sent := 0, delivered := 0, totalOpens := 0, uniqueOpens := 0
        uniqueClicks := 0, verifiedClicks := 0, unsubscribed := 0, count := 0
        openRate := none, ctr := none, verifiedCtr := none, deliveryRate := none
        avgUniqueClicks := none, avgVerifiedClicks := none } := rfl

/-- Unfolding lemma: summed unique clicks of any aggregation. -/
lemma aggregatePosts_uniqueClicks (posts : List Post) :
    (aggregatePosts posts).uniqueClicks = (posts.map Post.uniqueClicks).sum := by
  cases posts with
  | nil => rfl
  | cons p ps => rfl

/-- Unfolding lemma: summed verified clicks of any aggregation. -/
lemma aggregatePosts_verifiedClicks (posts : List Post) :
    (aggregatePosts posts).verifiedClicks = (posts.map Post.verifiedClicks).sum := by
  cases posts with
  | nil => rfl
  | cons p ps => rfl

end XLSXParser

/-- C2 counterexample: with one post of 1 unique open out of 3 delivered,
the aggregate open rate is the ROUNDED `33.33`, not the exact
`sum(uniqueOpens)/sum(delivered)*100 = 100/3` the claim asserts. -/
theorem c2_open_rate_exact_counterexample :
    (XLSXParser.aggregatePosts
        [{ date := 0, uniqueOpens := 1, delivered := 3 }]).openRate = some (3333 / 100) ∧
    (3333 / 100 : ℚ) ≠ 1 / 3 * 100 := by
  constructor
  · with_unfolding_all rfl
  · with_unfolding_all decide

/-- C2 amended: the aggregate open rate is the volume-weighted ratio
`sum(uniqueOpens)/sum(delivered)*100` rounded to two decimals
(`Math.round(x·10000)/100`) when `sum(delivered) > 0`, and `null`
otherwise; on the 2-post collection `samplePostA`/`samplePostB` with
unequal `delivered` it is 18, while the arithmetic mean of the per-post
open rates is 50. -/
theorem c2_open_rate_weighted (posts : List XLSXParser.Post) :
    (0 < (posts.map XLSXParser.Post.delivered).sum →
      (XLSXParser.aggregatePosts posts).openRate =
        some ((JSNum.jsRound (((posts.map XLSXParser.Post.uniqueOpens).sum : ℚ) /
            ((posts.map XLSXParser.Post.delivered).sum : ℚ) * 10000) : ℚ) / 100)) ∧
    (¬ 0 < (posts.map XLSXParser.Post.delivered).sum →
      (XLSXParser.aggregatePosts posts).openRate = none) ∧
    (XLSXParser.aggregatePosts [samplePostA, samplePostB]).openRate = some 18 ∧
    ((samplePostA.uniqueOpens : ℚ) / (samplePostA.delivered : ℚ) * 100 +
        (samplePostB.uniqueOpens : ℚ) / (samplePostB.delivered : ℚ) * 100) / 2 = 50 ∧
    (18 : ℚ) ≠ 50 := by
  refine ⟨?_, ?_, ?_, ?_, ?_⟩
  · intro hd
    have hne : posts ≠ [] := by
      intro he
      rw [he] at hd
      simp at hd
    rw [XLSXParser.aggregatePosts_openRate posts hne, if_pos hd]
  · intro hd
    cases posts with
    | nil => rfl
    | cons p ps =>
      rw [XLSXParser.aggregatePosts_openRate _ (List.cons_ne_nil p ps), if_neg hd]
  · with_unfolding_all rfl
  · with_unfolding_all decide
  · with_unfolding_all decide

/-- C2 witness: the weighted-rate equation instantiated at the singleton
collection `[samplePostA]`. -/
theorem c2_open_rate_weighted_witness :
    0 < ([samplePostA].map XLSXParser.Post.delivered).sum ∧
    (XLSXParser.aggregatePosts [samplePostA]).openRate =
      some ((JSNum.jsRound ((([samplePostA].map XLSXParser.Post.uniqueOpens).sum : ℚ) /
          (([samplePostA].map XLSXParser.Post.delivered).sum : ℚ) * 10000) : ℚ) / 100) :=
  ⟨by decide, (c2_open_rate_weighted [samplePostA]).1 (by decide)⟩

/-- C10: on a non-empty collection every non-`null` rate equals the
weighted ratio rounded through `Math.round(x·10000)/100`, the per-post
click averages equal `Math.round(x·100)/100`, and consequently every such
value is an integer multiple of `1/100` (at most two decimal digits). -/
theorem c10_two_decimal_rounding (posts : List XLSXParser.Post) (h : posts ≠ []) :
    (0 < (posts.map XLSXParser.Post.delivered).sum →
      (XLSXParser.aggregatePosts posts).openRate =
        some ((JSNum.jsRound (((posts.map XLSXParser.Post.uniqueOpens).sum : ℚ) /
            ((posts.map XLSXParser.Post.delivered).sum : ℚ) * 10000) : ℚ) / 100)) ∧
    (0 < (posts.map XLSXParser.Post.uniqueOpens).sum →
      (XLSXParser.aggregatePosts posts).ctr =
        some ((JSNum.jsRound (((posts.map XLSXParser.Post.uniqueClicks).sum : ℚ) /
            ((posts.map XLSXParser.Post.uniqueOpens).sum : ℚ) * 10000) : ℚ) / 100)) ∧
    (0 < (posts.map XLSXParser.Post.uniqueOpens).sum →
      (XLSXParser.aggregatePosts posts).verifiedCtr =
        some ((JSNum.jsRound (((posts.map XLSXParser.Post.verifiedClicks).sum : ℚ) /
            ((posts.map XLSXParser.Post.uniqueOpens).sum : ℚ) * 10000) : ℚ) / 100)) ∧
    (0 < (posts.map XLSXParser.Post.sent).sum →
      (XLSXParser.aggregatePosts posts).deliveryRate =
        some ((JSNum.jsRound (((posts.map XLSXParser.Post.delivered).sum : ℚ) /
            ((posts.map XLSXParser.Post.sent).sum : ℚ) * 10000) : ℚ) / 100)) ∧
    ((XLSXParser.aggregatePosts posts).avgUniqueClicks =
      some ((JSNum.jsRound (((posts.map XLSXParser.Post.uniqueClicks).sum : ℚ) /
          ((posts.length : ℤ) : ℚ) * 100) : ℚ) / 100)) ∧
    ((XLSXParser.aggregatePosts posts).avgVerifiedClicks =
      some ((JSNum.jsRound (((posts.map XLSXParser.Post.verifiedClicks).sum : ℚ) /
          ((posts.length : ℤ) : ℚ) * 100) : ℚ) / 100)) ∧
    (∀ r, (XLSXParser.aggregatePosts posts).openRate = some r → ∃ k : ℤ, r = (k : ℚ) / 100) ∧
    (∀ r, (XLSXParser.aggregatePosts posts).ctr = some r → ∃ k : ℤ, r = (k : ℚ) / 100) ∧
    (∀ r, (XLSXParser.aggregatePosts posts).verifiedCtr = some r →
      ∃ k : ℤ, r = (k : ℚ) / 100) ∧
    (∀ r, (XLSXParser.aggregatePosts posts).deliveryRate = some r →
      ∃ k : ℤ, r = (k : ℚ) / 100) ∧
    (∀ r, (XLSXParser.aggregatePosts posts).avgUniqueClicks = some r →
      ∃ k : ℤ, r = (k : ℚ) / 100) ∧
    (∀ r, (XLSXParser.aggregatePosts posts).avgVerifiedClicks = some r →
      ∃ k : ℤ, r = (k : ℚ) / 100) := by
  have hlen : 0 < (posts.length : ℤ) := by
    exact_mod_cast List.length_pos.mpr h
  refine ⟨?_, ?_, ?_, ?_, ?_, ?_, ?_, ?_, ?_, ?_, ?_, ?_⟩
  · intro hd
    rw [XLSXParser.aggregatePosts_openRate posts h, if_pos hd]
  · intro hd
    rw [XLSXParser.aggregatePosts_ctr posts h, if_pos hd]
  · intro hd
    rw [XLSXParser.aggregatePosts_verifiedCtr posts h, if_pos hd]
  · intro hd
    rw [XLSXParser.aggregatePosts_deliveryRate posts h, if_pos hd]
  · rw [XLSXParser.aggregatePosts_avgUniqueClicks posts h, if_pos hlen]
  · rw [XLSXParser.aggregatePosts_avgVerifiedClicks posts h, if_pos hlen]
  · intro r hr
    rw [XLSXParser.aggregatePosts_openRate posts h] at hr
    by_cases hd : 0 < (posts.map XLSXParser.Post.delivered).sum
    · rw [if_pos hd] at hr
      exact ⟨_, (Option.some.injEq _ _ ▸ hr).symm⟩
    · rw [if_neg hd] at hr
      exact absurd hr (by simp)
  · intro r hr
    rw [XLSXParser.aggregatePosts_ctr posts h] at hr
    by_cases hd : 0 < (posts.map XLSXParser.Post.uniqueOpens).sum
    · rw [if_pos hd] at hr
      exact ⟨_, (Option.some.injEq _ _ ▸ hr).symm⟩
    · rw [if_neg hd] at hr
      exact absurd hr (by simp)
  · intro r hr
    rw [XLSXParser.aggregatePosts_verifiedCtr posts h] at hr
    by_cases hd : 0 < (posts.map XLSXParser.Post.uniqueOpens).sum
    · rw [if_pos hd] at hr
      exact ⟨_, (Option.some.injEq _ _ ▸ hr).symm⟩
    · rw [if_neg hd] at hr
      exact absurd hr (by simp)
  · intro r hr
    rw [XLSXParser.aggregatePosts_deliveryRate posts h] at hr
    by_cases hd : 0 < (posts.map XLSXParser.Post.sent).sum
    · rw [if_pos hd] at hr
      exact ⟨_, (Option.some.injEq _ _ ▸ hr).symm⟩
    · rw [if_neg hd] at hr
      exact absurd hr (by simp)
  · intro r hr
    rw [XLSXParser.aggregatePosts_avgUniqueClicks posts h, if_pos hlen] at hr
    exact ⟨_, (Option.some.injEq _ _ ▸ hr).symm⟩
  · intro r hr
    rw [XLSXParser.aggregatePosts_avgVerifiedClicks posts h, if_pos hlen] at hr
    exact ⟨_, (Option.some.injEq _ _ ▸ hr).symm⟩

/-- C10 witness: two-decimal form of the open rate at `[samplePostA]`. -/
theorem c10_two_decimal_rounding_witness :
    ∃ k : ℤ, (90 : ℚ) = (k : ℚ) / 100 :=
  (c10_two_decimal_rounding [samplePostA] (by decide)).2.2.2.2.2.2.1 90
    (by with_unfolding_all rfl)

/-- C1 counterexample: two call sites place the ARITHMETIC MEAN of per-post
rates on a group.  For two same-week/same-month posts with open rates 90
and 10 but unequal volumes (100 vs 900 delivered), the weekly sparkline
bucket and the period group both carry 50 (the mean), while the ratio of
the group's summed counts is 180/1000·100 = 18 (as the weighted
`aggregatePosts` reports). -/
theorem c1_aggregation_sites_counterexample :
    DataService.getSparkline
        (some { posts := some [samplePostA, samplePostB] }) none (fun _ => [])
        "openRate" "weekly" = [some 50] ∧
    (CSVParser.aggregateByPeriod [sampleRowA, sampleRowB] "monthly").map
        (fun g => g.openRate) = [some 50] ∧
    (CSVParser.aggregateByPeriod [sampleRowA, sampleRowB] "monthly").map
        (fun g => (g.uniqueOpens, g.delivered)) = [(180, 1000)] ∧
    (180 : ℚ) / 1000 * 100 = 18 ∧
    (XLSXParser.aggregatePosts [samplePostA, samplePostB]).openRate = some 18 ∧
    (50 : ℚ) ≠ 18 := by
  refine ⟨?_, ?_, ?_, ?_, ?_, ?_⟩
  · with_unfolding_all rfl
  · with_unfolding_all rfl
  · with_unfolding_all rfl
  · with_unfolding_all decide
  · with_unfolding_all rfl
  · with_unfolding_all decide

/-- C1 amended: the KPI aggregator `aggregatePosts` does place the
volume-weighted ratio of summed counts (rounded to two decimals) on a
collection, but the period bucketing (`aggregateByPeriod`) and the weekly
sparkline aggregation (`getSparkline`) place the arithmetic mean of the
per-post rate fields on their groups, as the concrete group
`samplePostA`/`samplePostB` (mean 50, weighted ratio 18) shows. -/
theorem c1_aggregation_sites_amended (posts : List XLSXParser.Post) :
    (0 < (posts.map XLSXParser.Post.delivered).sum →
      (XLSXParser.aggregatePosts posts).openRate =
        some ((JSNum.jsRound (((posts.map XLSXParser.Post.uniqueOpens).sum : ℚ) /
            ((posts.map XLSXParser.Post.delivered).sum : ℚ) * 10000) : ℚ) / 100)) ∧
    DataService.getSparkline
        (some { posts := some [samplePostA, samplePostB] }) none (fun _ => [])
        "openRate" "weekly" = [some ((90 + 10) / 2)] ∧
    (CSVParser.aggregateByPeriod [sampleRowA, sampleRowB] "monthly").map
        (fun g => g.openRate) = [CSVParser.average [90, 10]] ∧
    CSVParser.average [90, 10] = some 50 ∧
    (XLSXParser.aggregatePosts [samplePostA, samplePostB]).openRate = some 18 ∧
    (50 : ℚ) ≠ 18 := by
  refine ⟨?_, ?_, ?_, ?_, ?_, ?_⟩
  · intro hd
    have hne : posts ≠ [] := by
      intro he
      rw [he] at hd
      simp at hd
    rw [XLSXParser.aggregatePosts_openRate posts hne, if_pos hd]
  · with_unfolding_all rfl
  · with_unfolding_all rfl
  · with_unfolding_all rfl
  · with_unfolding_all rfl
  · with_unfolding_all decide

/-- C1 witness: the weighted-aggregator equation at `[samplePostB]`. -/
theorem c1_aggregation_sites_amended_witness :
    0 < ([samplePostB].map XLSXParser.Post.delivered).sum ∧
    (XLSXParser.aggregatePosts [samplePostB]).openRate =
      some ((JSNum.jsRound ((([samplePostB].map XLSXParser.Post.uniqueOpens).sum : ℚ) /
          (([samplePostB].map XLSXParser.Post.delivered).sum : ℚ) * 10000) : ℚ) / 100) :=
  ⟨by decide, (c1_aggregation_sites_amended [samplePostB]).1 (by decide)⟩

/-- C7 counterexample: when the first half's aggregate open rate is `null`
(zero delivered), the delta value is a SUBSTITUTED `0` (with direction
`"positive"` from the raw difference), not the `null` the claim requires
for a zero-denominator division. -/
theorem c7_null_propagation_counterexample :
    (MainJS.computeXLSXDeltas [zeroDeliveredPost, samplePostA] none).openRate =
      { value := 0, direction := "positive", isAbsolute := false } ∧
    (XLSXParser.aggregatePosts [zeroDeliveredPost]).openRate = none := by
  constructor
  · with_unfolding_all rfl
  · with_unfolding_all rfl

/-- C7 amended: the Aggregator does yield `null` on a zero denominator and
the baseline is `null` when no records fall in the trailing window, but
the Delta Calculator substitutes `0` (not `null`) when the first-half
aggregate is 0 or `null`, and the per-metric baseline average substitutes
`0` when a non-empty window has no truthy entries. -/
theorem c7_null_propagation_amended (posts : List XLSXParser.Post)
    (prev curr : Option ℚ) (rows : List CSVParser.Row) (days now : ℤ) :
    (¬ 0 < (posts.map XLSXParser.Post.delivered).sum →
      (XLSXParser.aggregatePosts posts).openRate = none) ∧
    (prev.getD 0 = 0 → (MainJS.makeDelta prev curr false).value = 0) ∧
    InsightEngine.average [] = 0 ∧
    ((rows.filter fun r => now - days * 24 * 60 * 60 * 1000 ≤ r.date.getD 0) = [] →
      InsightEngine.calculateBaselines rows days now = none) ∧
    (InsightEngine.calculateBaselines [nullMetricsRow] 30 0).map
        InsightEngine.Baselines.openRate = some 0 := by
  refine ⟨?_, ?_, rfl, ?_, ?_⟩
  · intro hd
    cases posts with
    | nil => rfl
    | cons p ps =>
      rw [XLSXParser.aggregatePosts_openRate _ (List.cons_ne_nil p ps), if_neg hd]
  · intro hp
    simp [MainJS.makeDelta, hp]
  · cases rows with
    | nil => intro _; rfl
    | cons r rs =>
      intro hf
      simp only [InsightEngine.calculateBaselines]
      rw [hf]
  · with_unfolding_all rfl

/-- C7 witness: the zero-denominator branch of the Aggregator at the empty
collection. -/
theorem c7_null_propagation_amended_witness :
    ¬ 0 < (([] : List XLSXParser.Post).map XLSXParser.Post.delivered).sum ∧
    (XLSXParser.aggregatePosts []).openRate = none :=
  ⟨by decide, (c7_null_propagation_amended [] none none [] 30 0).1 (by decide)⟩

/-- C9 counterexample: a quoted field with an embedded line break is NOT
parsed as a single cell — the input is split on line boundaries before
quote handling, so the cell keeps only the part before the break
(`"Hello"`) and the continuation line is dropped for lack of a date. -/
theorem c9_embedded_newline_counterexample :
    (CSVParser.parse "Date,Subject or Title\n\"May 28, 2025\",\"Hello\nWorld\"").rows.length
      = 1 ∧
    CSVParser.objGet
        ((CSVParser.parse
          "Date,Subject or Title\n\"May 28, 2025\",\"Hello\nWorld\"").rows.getD 0 [])
        "title" = some (CSVParser.CellVal.str "Hello") ∧
    "Hello" ≠ "Hello\nWorld" := by
  refine ⟨?_, ?_, by decide⟩ <;> with_unfolding_all decide

/-- C9 amended: the first non-blank line is the header row; a failed
required-header (date-like column) validation yields zero rows and a
non-empty error list; a quoted field containing the delimiter is one
trimmed cell — but fields are split on raw line boundaries first, so
embedded line breaks are not preserved (see the counterexample). -/
theorem c9_csv_parse_amended (csvText : String) :
    (2 ≤ (CSVParser.splitLines csvText).length →
      (CSVParser.parse csvText).headers =
        CSVParser.parseCSVLine ((CSVParser.splitLines csvText).getD 0 "")) ∧
    (CSVParser.validateHeaders
        (CSVParser.parseCSVLine ((CSVParser.splitLines csvText).getD 0 "")) ≠ [] →
      (CSVParser.parse csvText).rows = [] ∧ (CSVParser.parse csvText).errors ≠ []) ∧
    CSVParser.parseCSVLine " \"May 28, 2025\" , \"Hello, world\" " =
      ["May 28, 2025", "Hello, world"] := by
  refine ⟨?_, ?_, by decide⟩
  · intro h2
    simp only [CSVParser.parse]
    rw [if_neg (by omega)]
    split <;> rfl
  · intro hv
    simp only [CSVParser.parse]
    by_cases h2 : (CSVParser.splitLines csvText).length < 2
    · rw [if_pos h2]
      exact ⟨rfl, by decide⟩
    · rw [if_neg h2, if_pos hv]
      exact ⟨rfl, hv⟩

/-- C9 witness: a bulk-text input without a date-like header produces zero
rows and a reported error. -/
theorem c9_csv_parse_amended_witness :
    CSVParser.validateHeaders
        (CSVParser.parseCSVLine ((CSVParser.splitLines "Foo,Bar\n1,2").getD 0 "")) ≠ [] ∧
    (CSVParser.parse "Foo,Bar\n1,2").rows = [] ∧
    (CSVParser.parse "Foo,Bar\n1,2").errors ≠ [] :=
  ⟨by with_unfolding_all decide,
    (c9_csv_parse_amended "Foo,Bar\n1,2").2.1 (by with_unfolding_all decide)⟩

/-- For a strictly increasing list of positive integers with at least two
elements, the second half (from `floor(n/2)`) has a strictly larger sum
than the first half. -/
lemma sum_take_lt_sum_drop (xs : List ℤ)
    (hsorted : xs.Pairwise (· < ·)) (hpos : ∀ x ∈ xs, 0 < x) (h2 : 2 ≤ xs.length) :
    (xs.take (xs.length / 2)).sum < (xs.drop (xs.length / 2)).sum := by
  set m := xs.length / 2 with hm
  have hm1 : 1 ≤ m := by omega
  have hmlt : m < xs.length := by omega
  have hdropne : xs.drop m ≠ [] := by
    intro hnil
    have hl : (xs.drop m).length = 0 := by rw [hnil]; rfl
    rw [List.length_drop] at hl
    omega
  obtain ⟨a, rest, hdrop⟩ := List.exists_cons_of_ne_nil hdropne
  have hpw := (List.take_append_drop m xs) ▸ hsorted
  rw [List.pairwise_append] at hpw
  obtain ⟨hpw1, hpw2, hcross⟩ := hpw
  have hamem : a ∈ xs.drop m := by
    rw [hdrop]
    exact List.mem_cons_self a rest
  have hxa : ∀ x ∈ xs.take m, x ≤ a - 1 := by
    intro x hx'
    have := hcross x hx' a hamem
    omega
  have hay : ∀ y ∈ xs.drop m, a ≤ y := by
    intro y hy
    rw [hdrop] at hy hpw2
    rcases List.mem_cons.mp hy with hya | hyr
    · omega
    · exact le_of_lt ((List.pairwise_cons.mp hpw2).1 y hyr)
  have hapos : 0 < a := hpos a (List.drop_subset m xs hamem)
  have h1 : (xs.take m).sum ≤ (xs.take m).length • (a - 1) :=
    List.sum_le_card_nsmul _ _ hxa
  have h2' : (xs.drop m).length • a ≤ (xs.drop m).sum :=
    List.card_nsmul_le_sum _ _ hay
  rw [List.length_take, min_eq_left (le_of_lt hmlt), nsmul_eq_mul] at h1
  rw [List.length_drop, nsmul_eq_mul] at h2'
  have hmQ : (1 : ℤ) ≤ (m : ℤ) := by exact_mod_cast hm1
  have hcount : (m : ℤ) ≤ ((xs.length - m : ℕ) : ℤ) := by
    have : m ≤ xs.length - m := by omega
    exact_mod_cast this
  calc (xs.take m).sum ≤ (m : ℤ) * (a - 1) := h1
    _ < (m : ℤ) * a := by nlinarith
    _ ≤ ((xs.length - m : ℕ) : ℤ) * a := by nlinarith
    _ ≤ (xs.drop m).sum := h2'

namespace MainJS

/-- Unfolding lemma: the unique-clicks delta of `computeXLSXDeltas`. -/
lemma computeXLSXDeltas_uniqueClicks (posts : List XLSXParser.Post)
    (aud : Option (List AudienceRecord)) :
    (computeXLSXDeltas posts aud).uniqueClicks =
      makeDelta
        (some ((XLSXParser.aggregatePosts
          ((posts.insertionSort (fun a b => a.date ≤ b.date)).take
            ((posts.insertionSort (fun a b => a.date ≤ b.date)).length / 2))).uniqueClicks : ℚ))
        (some ((XLSXParser.aggregatePosts
          ((posts.insertionSort (fun a b => a.date ≤ b.date)).drop
            ((posts.insertionSort (fun a b => a.date ≤ b.date)).length / 2))).uniqueClicks : ℚ))
        true := rfl

/-- Unfolding lemma: the value of an absolute (count) delta. -/
lemma makeDelta_true_value (p c : Option ℚ) :
    (makeDelta p c true).value = c.getD 0 - p.getD 0 := rfl

/-- Unfolding lemma: the direction of a delta is the sign of the raw
difference. -/
lemma makeDelta_direction (p c : Option ℚ) (b : Bool) :
    (makeDelta p c b).direction =
      if 0 < c.getD 0 - p.getD 0 then "positive"
      else if c.getD 0 - p.getD 0 < 0 then "negative" else "neutral" := rfl

/-- Unfolding lemma: the value of a percentage delta with truthy first
half. -/
lemma makeDelta_false_value (p c : Option ℚ) (hp : p.getD 0 ≠ 0) :
    (makeDelta p c false).value = (c.getD 0 - p.getD 0) / p.getD 0 * 100 := by
  simp [makeDelta, hp]

end MainJS

namespace CSVParser

/-- Unfolding lemma: the unique-clicks delta of the CSV `calculateDeltas`. -/
lemma calculateDeltas_uniqueClicks (rows : List Row) :
    (calculateDeltas rows).uniqueClicks =
      deltaKPI (calculateCurrentKPIs (rows.take (rows.length / 2))).uniqueClicks
        (calculateCurrentKPIs (rows.drop (rows.length / 2))).uniqueClicks true := rfl

/-- Unfolding lemma: the unique-clicks KPI reads as the summed clicks (0
for the empty half). -/
lemma calculateCurrentKPIs_uniqueClicks_getD (rows : List Row) :
    (calculateCurrentKPIs rows).uniqueClicks.getD 0 =
      (((rows.map fun r => r.uniqueClicks.getD 0).sum : ℤ) : ℚ) := by
  cases rows with
  | nil => simp [calculateCurrentKPIs, KPIs.uniqueClicks]
  | cons r rs => rfl

/-- Unfolding lemma: the value of an absolute (count) CSV delta. -/
lemma deltaKPI_true_value (p c : Option ℚ) :
    (deltaKPI p c true).value = c.getD 0 - p.getD 0 := rfl

/-- Unfolding lemma: the direction of a CSV delta is the sign of the raw
difference. -/
lemma deltaKPI_direction (p c : Option ℚ) (b : Bool) :
    (deltaKPI p c b).direction =
      if 0 < c.getD 0 - p.getD 0 then "positive"
      else if c.getD 0 - p.getD 0 < 0 then "negative" else "neutral" := rfl

end CSVParser

/-- C4 counterexample: `calculateDeltas` (CSV path) does NOT aggregate each
half with the weighted Aggregator: on the four rows
`sampleRowA … sampleRowD` the first half's per-row-mean open rate (50)
coincides with the second half's, so the code reports `"neutral"` — while
the spec-worded weighted comparison (`specDeltaOpenRate`: 18 → 50) is
`"positive"`. -/
theorem c4_delta_calculator_counterexample :
    (CSVParser.calculateDeltas
        [sampleRowA, sampleRowB, sampleRowC, sampleRowD]).openRate.direction = "neutral" ∧
    (specDeltaOpenRate
        [sampleRowA, sampleRowB, sampleRowC, sampleRowD]).direction = "positive" ∧
    ("neutral" : String) ≠ "positive" := by
  refine ⟨?_, ?_, by decide⟩
  · with_unfolding_all rfl
  · with_unfolding_all rfl

/-- C4 amended: both delta calculators split at `floor(n/2)` and compare
with sign-classified deltas (zero ↦ neutral, raw difference for count
metrics, percentage of the first half for rate metrics) — but
`computeXLSXDeltas` aggregates halves with the weighted `aggregatePosts`
while the CSV `calculateDeltas` uses per-row-mean KPIs (see the
counterexample).  For a strictly increasing positive count metric both
report `"positive"` with a positive value. -/
theorem c4_delta_calculator_amended
    (posts : List XLSXParser.Post) (aud : Option (List MainJS.AudienceRecord))
    (rows : List CSVParser.Row)
    (hsortp : posts.Pairwise (fun a b => a.date ≤ b.date))
    (hincp : (posts.map XLSXParser.Post.uniqueClicks).Pairwise (· < ·))
    (hposp : ∀ x ∈ posts.map XLSXParser.Post.uniqueClicks, 0 < x)
    (hlenp : 2 ≤ posts.length)
    (hincr : (rows.map fun r => r.uniqueClicks.getD 0).Pairwise (· < ·))
    (hposr : ∀ x ∈ rows.map fun r => r.uniqueClicks.getD 0, 0 < x)
    (hlenr : 2 ≤ rows.length) :
    (MainJS.computeXLSXDeltas posts aud).uniqueClicks.value =
      ((((posts.drop (posts.length / 2)).map XLSXParser.Post.uniqueClicks).sum : ℤ) : ℚ) -
        ((((posts.take (posts.length / 2)).map XLSXParser.Post.uniqueClicks).sum : ℤ) : ℚ) ∧
    (MainJS.computeXLSXDeltas posts aud).uniqueClicks.direction = "positive" ∧
    0 < (MainJS.computeXLSXDeltas posts aud).uniqueClicks.value ∧
    (CSVParser.calculateDeltas rows).uniqueClicks.value =
      ((((rows.drop (rows.length / 2)).map fun r => r.uniqueClicks.getD 0).sum : ℤ) : ℚ) -
        ((((rows.take (rows.length / 2)).map fun r => r.uniqueClicks.getD 0).sum : ℤ) : ℚ) ∧
    (CSVParser.calculateDeltas rows).uniqueClicks.direction = "positive" ∧
    0 < (CSVParser.calculateDeltas rows).uniqueClicks.value ∧
    (∀ p c : Option ℚ, ∀ b : Bool,
      (MainJS.makeDelta p c b).direction = "neutral" ↔ c.getD 0 = p.getD 0) ∧
    (∀ p c : Option ℚ, p.getD 0 ≠ 0 →
      (MainJS.makeDelta p c false).value = (c.getD 0 - p.getD 0) / p.getD 0 * 100) ∧
    (∀ p c : Option ℚ, (MainJS.makeDelta p c true).value = c.getD 0 - p.getD 0) := by
  have hEq : posts.insertionSort (fun a b => a.date ≤ b.date) = posts :=
    List.Sorted.insertionSort_eq hsortp
  have hltp := sum_take_lt_sum_drop (posts.map XLSXParser.Post.uniqueClicks) hincp hposp
    (by rw [List.length_map]; exact hlenp)
  rw [List.length_map, ← List.map_take, ← List.map_drop] at hltp
  have hltr := sum_take_lt_sum_drop (rows.map fun r => r.uniqueClicks.getD 0) hincr hposr
    (by rw [List.length_map]; exact hlenr)
  rw [List.length_map, ← List.map_take, ← List.map_drop] at hltr
  have hvalp : (MainJS.computeXLSXDeltas posts aud).uniqueClicks.value =
      ((((posts.drop (posts.length / 2)).map XLSXParser.Post.uniqueClicks).sum : ℤ) : ℚ) -
        ((((posts.take (posts.length / 2)).map XLSXParser.Post.uniqueClicks).sum : ℤ) : ℚ) := by
    rw [MainJS.computeXLSXDeltas_uniqueClicks, MainJS.makeDelta_true_value, hEq,
      XLSXParser.aggregatePosts_uniqueClicks, XLSXParser.aggregatePosts_uniqueClicks]
    simp only [Option.getD_some]
  have hQp : (0 : ℚ) <
      ((((posts.drop (posts.length / 2)).map XLSXParser.Post.uniqueClicks).sum : ℤ) : ℚ) -
        ((((posts.take (posts.length / 2)).map XLSXParser.Post.uniqueClicks).sum : ℤ) : ℚ) := by
    rw [sub_pos]
    exact_mod_cast hltp
  have hvalr : (CSVParser.calculateDeltas rows).uniqueClicks.value =
      ((((rows.drop (rows.length / 2)).map fun r => r.uniqueClicks.getD 0).sum : ℤ) : ℚ) -
        ((((rows.take (rows.length / 2)).map fun r => r.uniqueClicks.getD 0).sum : ℤ) : ℚ) := by
    rw [CSVParser.calculateDeltas_uniqueClicks, CSVParser.deltaKPI_true_value,
      CSVParser.calculateCurrentKPIs_uniqueClicks_getD,
      CSVParser.calculateCurrentKPIs_uniqueClicks_getD]
  have hQr : (0 : ℚ) <
      ((((rows.drop (rows.length / 2)).map fun r => r.uniqueClicks.getD 0).sum : ℤ) : ℚ) -
        ((((rows.take (rows.length / 2)).map fun r => r.uniqueClicks.getD 0).sum : ℤ) : ℚ) := by
    rw [sub_pos]
    exact_mod_cast hltr
  refine ⟨hvalp, ?_, ?_, hvalr, ?_, ?_, ?_, ?_, ?_⟩
  · rw [MainJS.computeXLSXDeltas_uniqueClicks, MainJS.makeDelta_direction, hEq,
      XLSXParser.aggregatePosts_uniqueClicks, XLSXParser.aggregatePosts_uniqueClicks]
    simp only [Option.getD_some]
    rw [if_pos hQp]
  · rw [hvalp]
    exact hQp
  · rw [CSVParser.calculateDeltas_uniqueClicks, CSVParser.deltaKPI_direction,
      CSVParser.calculateCurrentKPIs_uniqueClicks_getD,
      CSVParser.calculateCurrentKPIs_uniqueClicks_getD]
    rw [if_pos hQr]
  · rw [hvalr]
    exact hQr
  · intro p c b
    rw [MainJS.makeDelta_direction]
    rcases lt_trichotomy (c.getD 0 - p.getD 0) 0 with hlt | heq | hgt
    · rw [if_neg (by linarith), if_pos hlt]
      constructor
      · intro hx
        exact absurd hx (by decide)
      · intro hx
        have h0 : c.getD 0 - p.getD 0 = 0 := sub_eq_zero_of_eq hx
        linarith
    · rw [if_neg (by linarith), if_neg (by linarith)]
      exact ⟨fun _ => sub_eq_zero.mp heq, fun _ => rfl⟩
    · rw [if_pos hgt]
      constructor
      · intro hx
        exact absurd hx (by decide)
      · intro hx
        have h0 : c.getD 0 - p.getD 0 = 0 := sub_eq_zero_of_eq hx
        linarith
  · exact fun p c hp => MainJS.makeDelta_false_value p c hp
  · exact fun p c => MainJS.makeDelta_true_value p c

/-- C4 witness: two posts and two rows with strictly increasing positive
unique clicks yield positive deltas on both paths. -/
theorem c4_delta_calculator_amended_witness :
    (MainJS.computeXLSXDeltas
        [({ date := 1, uniqueClicks := 1 } : XLSXParser.Post),
          ({ date := 2, uniqueClicks := 2 } : XLSXParser.Post)] none).uniqueClicks.direction
      = "positive" ∧
    (CSVParser.calculateDeltas
        [({ date := some 1, uniqueClicks := some 1 } : CSVParser.Row),
          ({ date := some 2, uniqueClicks := some 2 } : CSVParser.Row)]).uniqueClicks.direction
      = "positive" := by
  have h := c4_delta_calculator_amended
    [({ date := 1, uniqueClicks := 1 } : XLSXParser.Post),
      ({ date := 2, uniqueClicks := 2 } : XLSXParser.Post)] none
    [({ date := some 1, uniqueClicks := some 1 } : CSVParser.Row),
      ({ date := some 2, uniqueClicks := some 2 } : CSVParser.Row)]
    (by decide) (by decide) (by decide) (by decide)
    (by decide) (by decide) (by decide)
  exact ⟨h.2.1, h.2.2.2.2.1⟩

/-- The indexed sum over a list's positions is the list sum. -/
lemma sum_range_getD (l : List ℚ) :
    (∑ i ∈ Finset.range l.length, l.getD i 0) = l.sum := by
  induction l with
  | nil => simp
  | cons a t ih =>
    rw [List.length_cons, Finset.sum_range_succ']
    simp only [List.getD_cons_succ, List.getD_cons_zero]
    rw [ih, List.sum_cons]
    ring

/-- Gauss sum over `range n`, cast to `ℚ`. -/
lemma sum_range_id_q (n : ℕ) :
    (∑ i ∈ Finset.range n, (i : ℚ)) * 2 = (n : ℚ) * n - n := by
  induction n with
  | zero => simp
  | succ k ih =>
    rw [Finset.sum_range_succ]
    push_cast
    push_cast at ih
    linarith

/-- Sum of squares over `range n`, cast to `ℚ`. -/
lemma sum_range_sq_q (n : ℕ) :
    (∑ i ∈ Finset.range n, (i : ℚ) * (i : ℚ)) * 6 =
      2 * (n : ℚ) ^ 3 - 3 * (n : ℚ) ^ 2 + n := by
  induction n with
  | zero => simp
  | succ k ih =>
    rw [Finset.sum_range_succ]
    push_cast
    push_cast at ih
    nlinarith [ih]

/-- The computational least-squares denominator `n·Σx² - (Σx)²` is positive
for `n ≥ 2`. -/
lemma trend_denom_pos (n : ℕ) (h2 : 2 ≤ n) :
    0 < (n : ℚ) * (∑ i ∈ Finset.range n, (i : ℚ) * (i : ℚ)) -
      (∑ i ∈ Finset.range n, (i : ℚ)) * (∑ i ∈ Finset.range n, (i : ℚ)) := by
  have g1 := sum_range_id_q n
  have g2 := sum_range_sq_q n
  have hn : (2 : ℚ) ≤ (n : ℚ) := by exact_mod_cast h2
  nlinarith [g1, g2, hn, sq_nonneg ((n : ℚ) - 1), sq_nonneg ((n : ℚ) + 1)]

/-- The centered least-squares slope (spec form) equals the computational
formula `(n·Σxy - Σx·Σy) / (n·Σx² - (Σx)²)` used by the code. -/
lemma olsSlope_eq_computational (values : List ℚ) (h2 : 2 ≤ values.length) :
    olsSlope values =
      ((values.length : ℚ) *
          (∑ i ∈ Finset.range values.length, (i : ℚ) * values.getD i 0) -
        (∑ i ∈ Finset.range values.length, (i : ℚ)) *
          (∑ i ∈ Finset.range values.length, values.getD i 0)) /
      ((values.length : ℚ) * (∑ i ∈ Finset.range values.length, (i : ℚ) * (i : ℚ)) -
        (∑ i ∈ Finset.range values.length, (i : ℚ)) *
          (∑ i ∈ Finset.range values.length, (i : ℚ))) := by
  have hn0 : ((values.length : ℚ)) ≠ 0 := by
    have : (0 : ℚ) < (values.length : ℚ) := by exact_mod_cast (by omega : 0 < values.length)
    exact ne_of_gt this
  have hden := trend_denom_pos values.length h2
  set n := values.length with hn
  set S1 : ℚ := ∑ i ∈ Finset.range n, (i : ℚ) with hS1
  set SY : ℚ := ∑ i ∈ Finset.range n, values.getD i 0 with hSY
  set SXY : ℚ := ∑ i ∈ Finset.range n, (i : ℚ) * values.getD i 0 with hSXY
  set S2 : ℚ := ∑ i ∈ Finset.range n, (i : ℚ) * (i : ℚ) with hS2
  have hybar : meanQ values = SY / n := by
    rw [meanQ, hSY, sum_range_getD]
  have hNum : (∑ i ∈ Finset.range n, ((i : ℚ) - S1 / n) * (values.getD i 0 - SY / n)) =
      SXY - (S1 / n) * SY - (SY / n) * S1 + n * ((S1 / n) * (SY / n)) := by
    have hterm : ∀ i ∈ Finset.range n,
        ((i : ℚ) - S1 / n) * (values.getD i 0 - SY / n) =
          (i : ℚ) * values.getD i 0 - (S1 / n) * values.getD i 0 -
            (SY / n) * (i : ℚ) + (S1 / n) * (SY / n) := by
      intro i _
      ring
    rw [Finset.sum_congr rfl hterm]
    rw [Finset.sum_add_distrib, Finset.sum_sub_distrib, Finset.sum_sub_distrib,
      ← Finset.mul_sum, ← Finset.mul_sum, Finset.sum_const, Finset.card_range,
      nsmul_eq_mul]
    try rw [← hSXY, ← hSY, ← hS1]
    try ring
  have hDen : (∑ i ∈ Finset.range n, ((i : ℚ) - S1 / n) * ((i : ℚ) - S1 / n)) =
      S2 - (S1 / n) * S1 - (S1 / n) * S1 + n * ((S1 / n) * (S1 / n)) := by
    have hterm : ∀ i ∈ Finset.range n,
        ((i : ℚ) - S1 / n) * ((i : ℚ) - S1 / n) =
          (i : ℚ) * (i : ℚ) - (S1 / n) * (i : ℚ) -
            (S1 / n) * (i : ℚ) + (S1 / n) * (S1 / n) := by
      intro i _
      ring
    rw [Finset.sum_congr rfl hterm]
    rw [Finset.sum_add_distrib, Finset.sum_sub_distrib, Finset.sum_sub_distrib,
      ← Finset.mul_sum, ← Finset.mul_sum, Finset.sum_const, Finset.card_range,
      nsmul_eq_mul]
    try rw [← hS2, ← hS1]
    try ring
  rw [olsSlope]
  simp only [← hn, ← hS1, hybar, ← hSY, ← hSXY, ← hS2]
  rw [hNum, hDen]
  rw [div_eq_div_iff]
  · field_simp
    ring
  · have hd2 : S2 - S1 / n * S1 - S1 / n * S1 + n * (S1 / n * (S1 / n)) =
        (n * S2 - S1 * S1) / n := by
      field_simp
      ring
    rw [hd2]
    exact div_ne_zero (ne_of_gt hden) hn0
  · exact ne_of_gt hden

/-- Unfolding lemma: `calculateTrend` on a sequence of length ≥ 2. -/
lemma calculateTrend_of_two_le (values : List ℚ) (h2 : 2 ≤ values.length) :
    InsightEngine.calculateTrend values =
      { slope :=
          if (∑ i ∈ Finset.range values.length, values.getD i 0) / (values.length : ℚ) ≠ 0 then
            ((values.length : ℚ) *
                (∑ i ∈ Finset.range values.length, (i : ℚ) * values.getD i 0) -
              (∑ i ∈ Finset.range values.length, (i : ℚ)) *
                (∑ i ∈ Finset.range values.length, values.getD i 0)) /
            ((values.length : ℚ) *
                (∑ i ∈ Finset.range values.length, (i : ℚ) * (i : ℚ)) -
              (∑ i ∈ Finset.range values.length, (i : ℚ)) *
                (∑ i ∈ Finset.range values.length, (i : ℚ))) /
            ((∑ i ∈ Finset.range values.length, values.getD i 0) / (values.length : ℚ)) * 100
          else 0
        direction :=
          if 1 <
              (if (∑ i ∈ Finset.range values.length, values.getD i 0) /
                    (values.length : ℚ) ≠ 0 then
                ((values.length : ℚ) *
                    (∑ i ∈ Finset.range values.length, (i : ℚ) * values.getD i 0) -
                  (∑ i ∈ Finset.range values.length, (i : ℚ)) *
                    (∑ i ∈ Finset.range values.length, values.getD i 0)) /
                ((values.length : ℚ) *
                    (∑ i ∈ Finset.range values.length, (i : ℚ) * (i : ℚ)) -
                  (∑ i ∈ Finset.range values.length, (i : ℚ)) *
                    (∑ i ∈ Finset.range values.length, (i : ℚ))) /
                ((∑ i ∈ Finset.range values.length, values.getD i 0) /
                  (values.length : ℚ)) * 100
              else 0) then "up"
          else if
              (if (∑ i ∈ Finset.range values.length, values.getD i 0) /
                    (values.length : ℚ) ≠ 0 then
                ((values.length : ℚ) *
                    (∑ i ∈ Finset.range values.length, (i : ℚ) * values.getD i 0) -
                  (∑ i ∈ Finset.range values.length, (i : ℚ)) *
                    (∑ i ∈ Finset.range values.length, values.getD i 0)) /
                ((values.length : ℚ) *
                    (∑ i ∈ Finset.range values.length, (i : ℚ) * (i : ℚ)) -
                  (∑ i ∈ Finset.range values.length, (i : ℚ)) *
                    (∑ i ∈ Finset.range values.length, (i : ℚ))) /
                ((∑ i ∈ Finset.range values.length, values.getD i 0) /
                  (values.length : ℚ)) * 100
              else 0) < -1 then "down"
          else "neutral"
        strength :=
          if 5 <
              |if (∑ i ∈ Finset.range values.length, values.getD i 0) /
                    (values.length : ℚ) ≠ 0 then
                ((values.length : ℚ) *
                    (∑ i ∈ Finset.range values.length, (i : ℚ) * values.getD i 0) -
                  (∑ i ∈ Finset.range values.length, (i : ℚ)) *
                    (∑ i ∈ Finset.range values.length, values.getD i 0)) /
                ((values.length : ℚ) *
                    (∑ i ∈ Finset.range values.length, (i : ℚ) * (i : ℚ)) -
                  (∑ i ∈ Finset.range values.length, (i : ℚ)) *
                    (∑ i ∈ Finset.range values.length, (i : ℚ))) /
                ((∑ i ∈ Finset.range values.length, values.getD i 0) /
                  (values.length : ℚ)) * 100
              else 0| then "strong"
          else if 2 <
              |if (∑ i ∈ Finset.range values.length, values.getD i 0) /
                    (values.length : ℚ) ≠ 0 then
                ((values.length : ℚ) *
                    (∑ i ∈ Finset.range values.length, (i : ℚ) * values.getD i 0) -
                  (∑ i ∈ Finset.range values.length, (i : ℚ)) *
                    (∑ i ∈ Finset.range values.length, values.getD i 0)) /
                ((values.length : ℚ) *
                    (∑ i ∈ Finset.range values.length, (i : ℚ) * (i : ℚ)) -
                  (∑ i ∈ Finset.range values.length, (i : ℚ)) *
                    (∑ i ∈ Finset.range values.length, (i : ℚ))) /
                ((∑ i ∈ Finset.range values.length, values.getD i 0) /
                  (values.length : ℚ)) * 100
              else 0| then "moderate"
          else "weak" } := by
  simp only [InsightEngine.calculateTrend]
  rw [if_neg (by omega)]

/-- C8: on fewer than 2 values the trend is `{0, neutral, none}`; on an
ordered sequence of length ≥ 2 with nonzero mean, the reported slope is the
ordinary-least-squares slope (centered form `olsSlope`) divided by the
sequence mean times 100, the direction is `up`/`down`/`neutral` at the ±1
thresholds on that normalized slope, and the strength is
`strong`/`moderate`/`weak` at the 5/2 magnitude thresholds. -/
theorem c8_trend_classification (values : List ℚ) :
    (values.length < 2 →
      InsightEngine.calculateTrend values =
        { slope := 0, direction := "neutral", strength := "none" }) ∧
    (2 ≤ values.length → meanQ values ≠ 0 →
      (InsightEngine.calculateTrend values).slope =
        olsSlope values / meanQ values * 100 ∧
      (InsightEngine.calculateTrend values).direction =
        (if 1 < (InsightEngine.calculateTrend values).slope then "up"
         else if (InsightEngine.calculateTrend values).slope < -1 then "down"
         else "neutral") ∧
      (InsightEngine.calculateTrend values).strength =
        (if 5 < |(InsightEngine.calculateTrend values).slope| then "strong"
         else if 2 < |(InsightEngine.calculateTrend values).slope| then "moderate"
         else "weak")) := by
  constructor
  · intro h
    simp only [InsightEngine.calculateTrend]
    rw [if_pos h]
  · intro h2 hm
    have havg : (∑ i ∈ Finset.range values.length, values.getD i 0) / (values.length : ℚ) =
        meanQ values := by
      rw [meanQ, sum_range_getD]
    have hm' : (∑ i ∈ Finset.range values.length, values.getD i 0) /
        (values.length : ℚ) ≠ 0 := by
      rw [havg]
      exact hm
    rw [calculateTrend_of_two_le values h2]
    refine ⟨?_, rfl, rfl⟩
    show (if (∑ i ∈ Finset.range values.length, values.getD i 0) /
            (values.length : ℚ) ≠ 0 then
          ((values.length : ℚ) *
              (∑ i ∈ Finset.range values.length, (i : ℚ) * values.getD i 0) -
            (∑ i ∈ Finset.range values.length, (i : ℚ)) *
              (∑ i ∈ Finset.range values.length, values.getD i 0)) /
          ((values.length : ℚ) *
              (∑ i ∈ Finset.range values.length, (i : ℚ) * (i : ℚ)) -
            (∑ i ∈ Finset.range values.length, (i : ℚ)) *
              (∑ i ∈ Finset.range values.length, (i : ℚ))) /
          ((∑ i ∈ Finset.range values.length, values.getD i 0) /
            (values.length : ℚ)) * 100
        else 0) = olsSlope values / meanQ values * 100
    rw [if_pos hm', olsSlope_eq_computational values h2, havg]

/-- C8 witness: the normalized-slope equation at the sequence
`[0, 2, 4, 6]` (mean 3). -/
theorem c8_trend_classification_witness :
    2 ≤ ([0, 2, 4, 6] : List ℚ).length ∧ meanQ [0, 2, 4, 6] ≠ 0 ∧
    (InsightEngine.calculateTrend [0, 2, 4, 6]).slope =
      olsSlope [0, 2, 4, 6] / meanQ [0, 2, 4, 6] * 100 :=
  ⟨by decide, by with_unfolding_all decide,
    ((c8_trend_classification [0, 2, 4, 6]).2 (by decide)
      (by with_unfolding_all decide)).1⟩
